import Mathlib

/-!
Verification of the ProcureHub procurement workflow engine.

The definitions below are a shallow embedding of the Python backend
(`backend/app/routers/rfqs.py`, `backend/app/routers/requests.py`,
`backend/app/services/rfq.py`, `backend/app/models/*.py`).

Modelling conventions:
* Timestamps and clock instants are integers (an absolute timeline, e.g.
  seconds since an epoch).  A stored datetime (`DBTime`) is either
  timezone-aware (`aware t`, carrying its absolute instant `t`) or naive
  (`naive w`, carrying only the wall-clock reading `w`; the two code paths
  disagree on how to interpret it, which is modelled faithfully).
* `datetime.now(tz)` calls are modelled by a `now : Int` parameter: aware
  datetimes produced for different timezones denote the same instant, and
  Python compares aware datetimes by instant.
* Monetary `Decimal` amounts are integers (e.g. cents).
* Each HTTP endpoint becomes a function `State → Except E State` (possibly
  with an output).  FastAPI's `get_db` dependency commits the transaction
  when the handler returns and rolls the whole transaction back when an
  exception escapes, so an `Except.error` result leaves the store in its
  pre-call state; callers of the embedding keep the old state on error.
* SQLAlchemy rows become structures; tables become lists; queries become
  `find?` / `filter` over those lists.  The backend runs on SQLite
  (`database.py` defaults to `sqlite:///./backend/procurahub.db`), where
  `ORDER BY ... ASC` places NULLs first.
-/

namespace ProcureHub

/-- The error taxonomy of the specification (§7). -/
inductive ErrKind
  | validation
  | not_found
  | forbidden
  | invalid_state
  | conflict
deriving DecidableEq, Repr

/-- User roles (`models/user.py` / dependencies). -/
inductive Role
  | requester
  | head_of_department
  | procurement
  | procurement_officer
  | finance
  | superadmin
  | supplier
deriving DecidableEq, Repr

/-- An authenticated caller: id plus role, as supplied by `require_roles`. -/
structure Actor where
  id : Nat
  role : Role
deriving DecidableEq, Repr

/-- Roles allowed to apply a budget override or decide a
pending-finance-approval quotation (`rfqs.py` lines 791, 799, 1045). -/
def elevated (r : Role) : Bool :=
  r == Role.finance || r == Role.superadmin

/-- A stored datetime.  `aware t` carries its absolute instant; `naive w`
carries only a wall-clock reading whose timezone interpretation is chosen
at the comparison site (SQLite drops timezone information, so DB reads
yield naive datetimes). -/
inductive DBTime
  | aware (instant : Int)
  | naive (wall : Int)
deriving DecidableEq, Repr

/-- Deadline comparison of `close_expired_rfqs` (`services/rfq.py` 44-58):
a naive deadline is tagged UTC (comment: "If deadline has no timezone
info, it's UTC (from DB)"), converted to Africa/Lusaka (which does not
change the instant), and compared with `now` using `<=`. -/
def sweep_deadline_passed (now : Int) : DBTime → Bool
  | DBTime.aware t => decide (t ≤ now)
  | DBTime.naive w => decide (w ≤ now)

/-- Deadline comparison of the single-RFQ read path (`rfqs.py` 508-523):
a naive deadline is re-tagged as Africa/Cairo wall time (comment: "If no
timezone, assume it's Africa/Cairo time"), so its absolute instant is the
wall reading minus the Cairo UTC offset, and the comparison with `now`
is strict `<`.  `cairo_offset` is the UTC offset of Africa/Cairo at the
moment of comparison (120 or 180 minutes depending on DST). -/
def read_deadline_passed (cairo_offset now : Int) : DBTime → Bool
  | DBTime.aware t => decide (t < now)
  | DBTime.naive w => decide (w - cairo_offset < now)

/-- The absolute instant a stored deadline denotes under the read path's
interpretation (naive values are Africa/Cairo wall time). -/
def read_instant (cairo_offset : Int) : DBTime → Int
  | DBTime.aware t => t
  | DBTime.naive w => w - cairo_offset

/-- RFQ status enum (`models/rfq.py`).  `opened` models the source's
`open` member (`open` is a Lean keyword). -/
inductive RFQStatus
  | draft
  | opened
  | closed
  | awarded
deriving DecidableEq, Repr

/-- Quotation status enum (`models/rfq.py`). -/
inductive QuotationStatus
  | draft
  | submitted
  | pending_finance_approval
  | approved
  | rejected
deriving DecidableEq, Repr

/-- Purchase-request status enum (`models/request.py`). -/
inductive RequestStatus
  | pending_hod
  | rejected_by_hod
  | pending_procurement
  | rejected_by_procurement
  | pending_finance
  | rejected_by_finance
  | finance_approved
  | rfq_issued
  | completed
deriving DecidableEq, Repr

/-- An RFQ row (`models/rfq.py`), restricted to the fields the workflow
engine reads or writes. -/
structure RFQ where
  id : Nat
  title : String
  category : String
  budget : Int
  deadline : Option DBTime
  status : RFQStatus
  response_locked : Bool
  budget_override_justification : Option String
deriving DecidableEq, Repr

/-- An invitation row (`models/rfq.py`).  The status is a plain string in
the source ("invited" / "responded" / "awarded" / "not_selected"). -/
structure Invitation where
  rfq_id : Nat
  supplier_id : Nat
  responded_at : Option Int
  status : String
deriving DecidableEq, Repr

/-- A quotation row (`models/rfq.py`), workflow-relevant fields. -/
structure Quotation where
  id : Nat
  rfq_id : Nat
  supplier_id : Nat
  amount : Int
  status : QuotationStatus
  approved_at : Option Int
  approved_by_id : Option Nat
  budget_override_justification : Option String
  finance_approval_requested_at : Option Int
  finance_approval_requested_by_id : Option Nat
deriving DecidableEq, Repr

/-- A supplier profile (`models/supplier.py`), fairness-relevant fields.
`categories` models the `SupplierCategory` join table rows naming this
supplier's category memberships. -/
structure SupplierProfile where
  id : Nat
  categories : List String
  invitations_sent : Nat
  last_invited_at : Option Int
  total_awarded_value : Int
deriving DecidableEq, Repr

/-- A purchase request row (`models/request.py`), workflow-relevant
fields. -/
structure PurchaseRequest where
  id : Nat
  title : String
  category : String
  department_id : Option Nat
  status : RequestStatus
  rfq_id : Option Nat
  proposed_budget_amount : Option Int
  proposed_budget_currency : Option String
  finance_budget_amount : Option Int
  finance_budget_currency : Option String
  rfq_invited_at : Option Int
deriving DecidableEq, Repr

/-- The relational store.  The `next_*` counters model autoincrement
primary keys. -/
structure State where
  rfqs : List RFQ
  quotations : List Quotation
  invitations : List Invitation
  suppliers : List SupplierProfile
  requests : List PurchaseRequest
  departments : List Nat
  next_quotation_id : Nat
  next_rfq_id : Nat
  next_request_id : Nat
deriving DecidableEq, Repr

/-- Does an open RFQ fall due under the sweep's comparison
(`services/rfq.py` 44-58)?  RFQs with no deadline are skipped. -/
def rfq_expires (now : Int) (r : RFQ) : Bool :=
  r.status == RFQStatus.opened &&
    match r.deadline with
    | none => false
    | some d => sweep_deadline_passed now d

/-- The per-row action of the sweep (`services/rfq.py` 58-63): set status
`closed` and clear `response_locked`. -/
def close_one (now : Int) (r : RFQ) : RFQ :=
  if rfq_expires now r then
    { r with status := RFQStatus.closed, response_locked := false }
  else r

/-- State effect of `close_expired_rfqs` (`services/rfq.py` 31-67). -/
def sweep (now : Int) (s : State) : State :=
  { s with rfqs := s.rfqs.map (close_one now) }

/-- `close_expired_rfqs`: closes every open RFQ whose deadline has passed
(sweep comparison), clears its response lock, and returns the number of
RFQs closed. -/
def close_expired_rfqs (now : Int) (s : State) : State × Nat :=
  (sweep now s, s.rfqs.countP (rfq_expires now))

/-- `db.query(RFQ).filter(RFQ.id == rfq_id).first()`. -/
def findRfq (s : State) (rfq_id : Nat) : Option RFQ :=
  s.rfqs.find? (fun r => r.id == rfq_id)

/-- `db.query(Quotation).filter(Quotation.id == quotation_id,
Quotation.rfq_id == rfq_id).first()`. -/
def findQuotation (s : State) (rfq_id quotation_id : Nat) : Option Quotation :=
  s.quotations.find? (fun q => q.id == quotation_id && q.rfq_id == rfq_id)

/-- Apply `f` to the first element satisfying `p` (SQLAlchemy `.first()`
followed by attribute assignment mutates only that row). -/
def updateFirst (p : α → Bool) (f : α → α) : List α → List α
  | [] => []
  | x :: xs => if p x then f x :: xs else x :: updateFirst p f xs

/-! ### Fairness selector (`services/rfq.py` 70-82) -/

/-- `ORDER BY last_invited_at ASC` on SQLite: NULL sorts before every
value, so never-invited suppliers come first. -/
def last_invited_le : Option Int → Option Int → Bool
  | none, _ => true
  | some _, none => false
  | some x, some y => decide (x ≤ y)

/-- The selector's sort order: ascending `invitations_sent`, then
ascending `last_invited_at` with NULL (never invited) first. -/
def supplier_le (a b : SupplierProfile) : Bool :=
  decide (a.invitations_sent < b.invitations_sent) ||
    (a.invitations_sent == b.invitations_sent &&
      last_invited_le a.last_invited_at b.last_invited_at)

/-- `supplier_le` as a relation, for the sort lemmas. -/
def SupplierLE (a b : SupplierProfile) : Prop :=
  supplier_le a b = true

instance : DecidableRel SupplierLE := fun a b => by
  unfold SupplierLE; infer_instance

/-- `select_suppliers_for_rfq` (`services/rfq.py` 70-82): suppliers whose
category membership matches, ordered by the fairness key; `limit=0` is
falsy in Python, so it applies no limit. -/
def select_suppliers_for_rfq (category : String) (limit : Option Nat)
    (s : State) : List SupplierProfile :=
  let chosen := (s.suppliers.filter
    (fun sp => sp.categories.contains category)).insertionSort SupplierLE
  match limit with
  | none => chosen
  | some n => if n == 0 then chosen else chosen.take n

/-! ### Invitation manager (`services/rfq.py` 85-155) -/

/-- `create_invitations` (`services/rfq.py` 85-155): for **every** supplier
passed (the function performs no already-invited check), add an invitation
row, increment the supplier's `invitations_sent`, and set
`last_invited_at`.  Returns the number of invitations created (the length
of the returned list, i.e. one per supplier passed).  Email dispatch is
fire-and-forget and does not touch the store. -/
def create_invitations (now : Int) (rfq_id : Nat) (supplier_ids : List Nat)
    (s : State) : State × Nat :=
  (supplier_ids.foldl
    (fun st sid =>
      { st with
        invitations := st.invitations ++
          [{ rfq_id := rfq_id, supplier_id := sid, responded_at := none,
             status := "invited" }],
        suppliers := st.suppliers.map (fun sp =>
          if sp.id == sid then
            { sp with invitations_sent := sp.invitations_sent + 1,
                      last_invited_at := some now }
          else sp) })
    s, supplier_ids.length)

/-! ### Quotation submission (`rfqs.py` 592-714) -/

/-- Errors of `submit_quotation`; each constructor names the raise site
and carries its taxonomy kind via `SubmitError.kind`. -/
inductive SubmitError
  | role_not_allowed        -- 403 from the supplier-profile dependency
  | rfq_not_found           -- 404 "RFQ not found"
  | rfq_not_open            -- 400 "RFQ is not open for quotations"
  | not_invited             -- 403 "Supplier not invited to this RFQ"
  | duplicate_quotation     -- 400 "You have already submitted a quotation"
deriving DecidableEq, Repr

def SubmitError.kind : SubmitError → ErrKind
  | SubmitError.role_not_allowed => ErrKind.forbidden
  | SubmitError.rfq_not_found => ErrKind.not_found
  | SubmitError.rfq_not_open => ErrKind.invalid_state
  | SubmitError.not_invited => ErrKind.forbidden
  | SubmitError.duplicate_quotation => ErrKind.conflict

/-- `submit_quotation` (`rfqs.py` 592-714).  The caller is a supplier
user with profile `supplier_profile_id`.  On success, returns the new
state and the created quotation id.  The route first runs
`close_expired_rfqs`, then checks the RFQ is open, the supplier is
invited, and no duplicate quotation exists; on success it inserts the
quotation (`submitted`), marks the invitation `responded`, and sets
`response_locked` if not already set (lines 671-674). -/
def submit_quotation (now : Int) (actor : Actor) (supplier_profile_id : Nat)
    (rfq_id : Nat) (amount : Int) (s0 : State) :
    Except SubmitError (State × Nat) :=
  if ¬ actor.role = Role.supplier then Except.error SubmitError.role_not_allowed
  else
  let s := sweep now s0
  match findRfq s rfq_id with
  | none => Except.error SubmitError.rfq_not_found
  | some rfq =>
    if ¬ rfq.status = RFQStatus.opened then Except.error SubmitError.rfq_not_open
    else if ¬ (s.invitations.any (fun inv =>
        inv.rfq_id == rfq_id && inv.supplier_id == supplier_profile_id)) then
      Except.error SubmitError.not_invited
    else if s.quotations.any (fun q =>
        q.rfq_id == rfq_id && q.supplier_id == supplier_profile_id) then
      Except.error SubmitError.duplicate_quotation
    else
      let qid := s.next_quotation_id
      let q : Quotation :=
        { id := qid, rfq_id := rfq_id, supplier_id := supplier_profile_id,
          amount := amount, status := QuotationStatus.submitted,
          approved_at := none, approved_by_id := none,
          budget_override_justification := none,
          finance_approval_requested_at := none,
          finance_approval_requested_by_id := none }
      Except.ok
        ({ s with
            quotations := s.quotations ++ [q],
            invitations := updateFirst
              (fun inv => inv.rfq_id == rfq_id &&
                inv.supplier_id == supplier_profile_id)
              (fun inv => { inv with responded_at := some now,
                                     status := "responded" })
              s.invitations,
            rfqs := s.rfqs.map (fun r =>
              if r.id == rfq_id then
                (if r.response_locked then r
                 else { r with response_locked := true })
              else r),
            next_quotation_id := qid + 1 }, qid)

/-! ### Budget-override escalation (`rfqs.py` 717-758) -/

inductive FinanceRequestError
  | role_not_allowed        -- 403 require_roles(procurement, superadmin)
  | quotation_not_found     -- 404 "Quotation not found"
  | already_approved        -- 400 "Quotation is already approved"
  | already_requested       -- 400 "Finance approval has already been requested"
deriving DecidableEq, Repr

def FinanceRequestError.kind : FinanceRequestError → ErrKind
  | FinanceRequestError.role_not_allowed => ErrKind.forbidden
  | FinanceRequestError.quotation_not_found => ErrKind.not_found
  | FinanceRequestError.already_approved => ErrKind.conflict
  | FinanceRequestError.already_requested => ErrKind.conflict

/-- The row update of `request_finance_approval` (`rfqs.py` 744-748). -/
def escalate_quotation_row (now : Int) (actor : Actor)
    (rfq_id quotation_id : Nat) (justification : String)
    (q2 : Quotation) : Quotation :=
  if q2.id == quotation_id && q2.rfq_id == rfq_id then
    { q2 with status := QuotationStatus.pending_finance_approval,
              budget_override_justification := some justification,
              finance_approval_requested_at := some now,
              finance_approval_requested_by_id := some actor.id }
  else q2

/-- `request_finance_approval` (`rfqs.py` 717-758): move a quotation to
`pending_finance_approval`, recording justification, requester and time.
The status guard only blocks `approved` and `pending_finance_approval`
quotations. -/
def request_finance_approval (now : Int) (actor : Actor)
    (rfq_id quotation_id : Nat) (justification : String) (s0 : State) :
    Except FinanceRequestError State :=
  if ¬ (actor.role = Role.procurement ∨ actor.role = Role.superadmin) then
    Except.error FinanceRequestError.role_not_allowed
  else
  let s := sweep now s0
  match findQuotation s rfq_id quotation_id with
  | none => Except.error FinanceRequestError.quotation_not_found
  | some q =>
    if q.status = QuotationStatus.approved then
      Except.error FinanceRequestError.already_approved
    else if q.status = QuotationStatus.pending_finance_approval then
      Except.error FinanceRequestError.already_requested
    else
      Except.ok
        { s with
          quotations := s.quotations.map
            (escalate_quotation_row now actor rfq_id quotation_id
              justification) }

/-! ### Quotation approval (`rfqs.py` 761-1016) -/

inductive ApproveError
  | role_not_allowed          -- 403 require_roles(finance, superadmin, procurement)
  | quotation_not_found       -- 404 "Quotation not found"
  | pending_requires_finance  -- 403 "pending Finance approval ..."
  | override_requires_finance -- 403 "Only Finance or SuperAdmin can approve ..."
  | already_awarded           -- 400 "RFQ has already been awarded to another quotation"
  | rfq_not_found             -- 404 "RFQ not found"
deriving DecidableEq, Repr

def ApproveError.kind : ApproveError → ErrKind
  | ApproveError.role_not_allowed => ErrKind.forbidden
  | ApproveError.quotation_not_found => ErrKind.not_found
  | ApproveError.pending_requires_finance => ErrKind.forbidden
  | ApproveError.override_requires_finance => ErrKind.forbidden
  | ApproveError.already_awarded => ErrKind.conflict
  | ApproveError.rfq_not_found => ErrKind.not_found

/-- The award cascade applied to each quotation row (`rfqs.py` 841-886):
the target becomes `approved` with timestamp/approver and (when an
override justification is supplied) the concatenated justification; every
other quotation of the same RFQ that is not already `rejected` becomes
`rejected` with its approval metadata cleared; rows of other RFQs are
untouched. -/
def award_quotation_row (now : Int) (actor : Actor) (rfq_id quotation_id : Nat)
    (override : Option String) (q2 : Quotation) : Quotation :=
  if q2.id == quotation_id && q2.rfq_id == rfq_id then
    { q2 with
      status := QuotationStatus.approved,
      approved_at := some now,
      approved_by_id := some actor.id,
      budget_override_justification :=
        match override with
        | none => q2.budget_override_justification
        | some j =>
          match q2.budget_override_justification with
          | none => some j
          | some e => some (e ++ "\n\n[Finance Approval]: " ++ j) }
  else if q2.rfq_id == rfq_id then
    if ¬ q2.status = QuotationStatus.rejected then
      { q2 with status := QuotationStatus.rejected,
                approved_at := none, approved_by_id := none }
    else q2
  else q2

/-- The state mutation of a successful approval (`rfqs.py` 841-899),
applied to the post-sweep store: reject the sibling quotations (clearing
their approval metadata unless already rejected), reconcile invitations
(`awarded` for the winner's supplier, `not_selected` for the rest),
mark the RFQ `awarded`, accumulate the winning amount into the supplier's
`total_awarded_value`, and complete the originating purchase request, if
any.  `q` is the target quotation row as found. -/
def award_state (now : Int) (actor : Actor) (rfq_id quotation_id : Nat)
    (budget_override_justification : Option String) (q : Quotation)
    (s : State) : State :=
  { s with
    quotations := s.quotations.map
      (award_quotation_row now actor rfq_id quotation_id
        budget_override_justification),
    invitations := s.invitations.map (fun inv =>
      if inv.rfq_id == rfq_id then
        if inv.supplier_id == q.supplier_id then
          { inv with
            status := "awarded",
            responded_at :=
              match inv.responded_at with
              | none => some now
              | some t => some t }
        else { inv with status := "not_selected" }
      else inv),
    rfqs := s.rfqs.map (fun r =>
      if r.id == rfq_id then
        { r with
          status := RFQStatus.awarded,
          budget_override_justification :=
            match budget_override_justification with
            | some j => some j
            | none => r.budget_override_justification }
      else r),
    suppliers := s.suppliers.map (fun sp =>
      if sp.id == q.supplier_id then
        { sp with total_awarded_value :=
            sp.total_awarded_value + q.amount }
      else sp),
    requests := updateFirst (fun r => r.rfq_id == some rfq_id)
      (fun r => { r with status := RequestStatus.completed })
      s.requests }

/-- `approve_quotation` (`rfqs.py` 761-1016).  Checks run in source
order: role gate of the route, quotation lookup, early success return for
an already-approved target (line 785-786), role gates for
pending-finance / override approval (788-803), existing-winner check
(805-818), RFQ lookup, then the atomic award cascade (841-899): sibling
quotations rejected, invitations reconciled, RFQ `awarded`, supplier
total accumulated, originating request completed. -/
def approve_quotation (now : Int) (actor : Actor) (rfq_id quotation_id : Nat)
    (budget_override_justification : Option String) (s0 : State) :
    Except ApproveError State :=
  if ¬ (actor.role = Role.finance ∨ actor.role = Role.superadmin ∨
        actor.role = Role.procurement) then
    Except.error ApproveError.role_not_allowed
  else
  let s := sweep now s0
  match findQuotation s rfq_id quotation_id with
  | none => Except.error ApproveError.quotation_not_found
  | some q =>
    if q.status = QuotationStatus.approved then
      Except.ok s
    else if q.status = QuotationStatus.pending_finance_approval ∧
        ¬ elevated actor.role = true then
      Except.error ApproveError.pending_requires_finance
    else if ¬ q.status = QuotationStatus.pending_finance_approval ∧
        budget_override_justification.isSome ∧ ¬ elevated actor.role = true then
      Except.error ApproveError.override_requires_finance
    else if s.quotations.any (fun q2 =>
        q2.rfq_id == rfq_id && q2.status == QuotationStatus.approved &&
        ¬ q2.id == quotation_id) then
      Except.error ApproveError.already_awarded
    else
      match findRfq s rfq_id with
      | none => Except.error ApproveError.rfq_not_found
      | some _ =>
        Except.ok (award_state now actor rfq_id quotation_id
          budget_override_justification q s)

/-! ### Quotation rejection (`rfqs.py` 1019-1105) -/

inductive RejectError
  | role_not_allowed         -- 403 require_roles(finance, superadmin, procurement)
  | quotation_not_found      -- 404 "Quotation not found"
  | pending_requires_finance -- 403 "Only Finance or SuperAdmin can reject ..."
deriving DecidableEq, Repr

def RejectError.kind : RejectError → ErrKind
  | RejectError.role_not_allowed => ErrKind.forbidden
  | RejectError.quotation_not_found => ErrKind.not_found
  | RejectError.pending_requires_finance => ErrKind.forbidden

/-- The row update of `reject_quotation` (`rfqs.py` 1057). -/
def reject_quotation_row (rfq_id quotation_id : Nat)
    (q2 : Quotation) : Quotation :=
  if q2.id == quotation_id && q2.rfq_id == rfq_id then
    { q2 with status := QuotationStatus.rejected }
  else q2

/-- `reject_quotation` (`rfqs.py` 1019-1105): sets the quotation
`rejected`.  No deadline sweep runs here, the only state guard is the
role gate on pending-finance quotations, and no sibling or RFQ rows are
touched. -/
def reject_quotation (actor : Actor) (rfq_id quotation_id : Nat)
    (s : State) : Except RejectError State :=
  if ¬ (actor.role = Role.finance ∨ actor.role = Role.superadmin ∨
        actor.role = Role.procurement) then
    Except.error RejectError.role_not_allowed
  else
  match findQuotation s rfq_id quotation_id with
  | none => Except.error RejectError.quotation_not_found
  | some q =>
    if q.status = QuotationStatus.pending_finance_approval ∧
        ¬ elevated actor.role = true then
      Except.error RejectError.pending_requires_finance
    else
      Except.ok
        { s with
          quotations := s.quotations.map
            (reject_quotation_row rfq_id quotation_id) }

/-! ### Single-RFQ read (`rfqs.py` 485-566) -/

/-- The serialized RFQ payload (`RFQWithQuotations`), restricted to the
modelled fields. -/
structure RFQPayload where
  id : Nat
  title : String
  category : String
  budget : Int
  deadline : Option DBTime
  status : RFQStatus
  response_locked : Bool
  quotations : List Quotation
deriving DecidableEq, Repr

inductive ReadError
  | role_not_allowed -- 403: the route admits every staff role but not suppliers
  | rfq_not_found    -- 404 "RFQ not found"
deriving DecidableEq, Repr

def ReadError.kind : ReadError → ErrKind
  | ReadError.role_not_allowed => ErrKind.forbidden
  | ReadError.rfq_not_found => ErrKind.not_found

/-- `read_rfq` (`rfqs.py` 485-566).  Runs the sweep, looks the RFQ up,
computes `deadline_passed` with the read-path comparison (Africa/Cairo,
strict `<`), lazily clears the lock when the deadline has passed, and —
while locked with the deadline not passed — returns a payload whose
`response_locked` is `False` (line 546) and whose quotation list is empty
(line 550); otherwise it serializes the RFQ with all its quotations. -/
def read_rfq (now cairo_offset : Int) (actor : Actor) (rfq_id : Nat)
    (s0 : State) : Except ReadError (State × RFQPayload) :=
  if ¬ (actor.role = Role.superadmin ∨ actor.role = Role.procurement ∨
        actor.role = Role.procurement_officer ∨ actor.role = Role.requester ∨
        actor.role = Role.finance) then
    Except.error ReadError.role_not_allowed
  else
  let s := sweep now s0
  match findRfq s rfq_id with
  | none => Except.error ReadError.rfq_not_found
  | some rfq =>
    let locked := rfq.response_locked
    let deadline_passed :=
      match rfq.deadline with
      | none => false
      | some d => read_deadline_passed cairo_offset now d
    let s2 :=
      if deadline_passed && locked then
        { s with rfqs := s.rfqs.map (fun r =>
            if r.id == rfq_id then { r with response_locked := false }
            else r) }
      else s
    let locked2 := if deadline_passed && locked then false else locked
    if locked2 && ! deadline_passed then
      Except.ok (s2,
        { id := rfq.id, title := rfq.title, category := rfq.category,
          budget := rfq.budget, deadline := rfq.deadline,
          status := rfq.status, response_locked := false,
          quotations := [] })
    else
      Except.ok (s2,
        { id := rfq.id, title := rfq.title, category := rfq.category,
          budget := rfq.budget, deadline := rfq.deadline,
          status := rfq.status, response_locked := locked2,
          quotations := s2.quotations.filter (fun q => q.rfq_id == rfq_id) })

/-! ### Purchase-request creation (`requests.py` 218-309) -/

inductive CreateRequestError
  | role_not_allowed     -- 403 require_roles(requester, superadmin)
  | department_not_found -- 404 "Department not found"
deriving DecidableEq, Repr

def CreateRequestError.kind : CreateRequestError → ErrKind
  | CreateRequestError.role_not_allowed => ErrKind.forbidden
  | CreateRequestError.department_not_found => ErrKind.not_found

/-- `create_request` (`requests.py` 218-309): validates the referenced
department exists (404 on absence, before any insert), then creates the
request in `pending_hod` with `proposed_budget_amount = Decimal("0")`,
currency `"ZMW"`, and no finance budget.  Returns the new request id. -/
def create_request (actor : Actor) (department_id : Nat)
    (title category : String) (s : State) :
    Except CreateRequestError (State × Nat) :=
  if ¬ (actor.role = Role.requester ∨ actor.role = Role.superadmin) then
    Except.error CreateRequestError.role_not_allowed
  else if ¬ (s.departments.contains department_id) then
    Except.error CreateRequestError.department_not_found
  else
    let rid := s.next_request_id
    Except.ok
      ({ s with
          requests := s.requests ++
            [{ id := rid, title := title, category := category,
               department_id := some department_id,
               status := RequestStatus.pending_hod,
               rfq_id := none,
               proposed_budget_amount := some 0,
               proposed_budget_currency := some "ZMW",
               finance_budget_amount := none,
               finance_budget_currency := none,
               rfq_invited_at := none }],
          next_request_id := rid + 1 }, rid)

/-! ### Supplier invitation from a request (`requests.py` 1040-1165) -/

inductive InviteError
  | role_not_allowed    -- 403 require_roles(procurement, superadmin)
  | request_not_found   -- 404 from _get_request_or_404
  | invalid_status      -- 400 "Suppliers can only be invited once ..."
  | no_suppliers        -- 400 "At least one supplier must be selected ..."
  | deadline_not_future -- 400 "RFQ deadline must be in the future"
  | suppliers_missing   -- 404 "Supplier(s) not found: ..."
  | all_already_invited -- 400 "All selected suppliers have already been invited ..."
deriving DecidableEq, Repr

def InviteError.kind : InviteError → ErrKind
  | InviteError.role_not_allowed => ErrKind.forbidden
  | InviteError.request_not_found => ErrKind.not_found
  | InviteError.invalid_status => ErrKind.invalid_state
  | InviteError.no_suppliers => ErrKind.validation
  | InviteError.deadline_not_future => ErrKind.validation
  | InviteError.suppliers_missing => ErrKind.not_found
  | InviteError.all_already_invited => ErrKind.conflict

/-- The UTC instant of the invite route's deadline normalization
(`requests.py` 1061-1065): an aware deadline keeps its instant, a naive
one is tagged UTC. -/
def invite_deadline_instant : DBTime → Int
  | DBTime.aware t => t
  | DBTime.naive w => w

/-- The create-or-refresh step of `invite_suppliers` (`requests.py`
1085-1131): reuse the request's RFQ when it exists (resetting deadline,
status `open`, and budget from the finance or proposed amount), otherwise
create a fresh open RFQ carried by the request.  Returns the state and
the id of the RFQ to invite into. -/
def ensure_request_rfq (req : PurchaseRequest)
    (deadline : DBTime) (s0 : State) : State × Nat :=
  let existing : Option RFQ :=
    match req.rfq_id with
    | none => none
    | some rid => findRfq s0 rid
  match existing with
  | some r =>
    ({ s0 with rfqs := s0.rfqs.map (fun r2 =>
        if r2.id == r.id then
          { r2 with
            deadline := some (DBTime.aware (invite_deadline_instant deadline)),
            status := RFQStatus.opened,
            budget :=
              match req.finance_budget_amount, req.proposed_budget_amount with
              | some b, _ => b
              | none, some b => b
              | none, none => r2.budget }
        else r2) }, r.id)
  | none =>
    ({ s0 with
        rfqs := s0.rfqs ++
          [{ id := s0.next_rfq_id, title := req.title,
             category := req.category,
             budget :=
               match req.finance_budget_amount,
                   req.proposed_budget_amount with
               | some b, _ => b
               | none, some b => b
               | none, none => 0,
             deadline := some (DBTime.aware (invite_deadline_instant deadline)),
             status := RFQStatus.opened, response_locked := false,
             budget_override_justification := none }],
        next_rfq_id := s0.next_rfq_id + 1 }, s0.next_rfq_id)

/-- `invite_suppliers` (`requests.py` 1040-1165).  Checks in source
order: request status, non-empty supplier list, future deadline, all
supplier ids exist (404 listing the missing ones), then creates or
refreshes the request's RFQ, filters out suppliers already invited to
that RFQ (lines 1133-1134, in the route, not in `create_invitations`),
fails when none remain, delegates to `create_invitations` for the rest,
and marks the request `rfq_issued`.  Returns the number of invitations
created. -/
def invite_suppliers (now : Int) (actor : Actor) (request_id : Nat)
    (supplier_ids : List Nat) (deadline : DBTime) (s0 : State) :
    Except InviteError (State × Nat) :=
  if ¬ (actor.role = Role.procurement ∨ actor.role = Role.superadmin) then
    Except.error InviteError.role_not_allowed
  else
  match s0.requests.find? (fun r => r.id == request_id) with
  | none => Except.error InviteError.request_not_found
  | some req =>
    if ¬ (req.status = RequestStatus.finance_approved ∨
          req.status = RequestStatus.rfq_issued) then
      Except.error InviteError.invalid_status
    else if supplier_ids = [] then
      Except.error InviteError.no_suppliers
    else if invite_deadline_instant deadline ≤ now then
      Except.error InviteError.deadline_not_future
    else if ¬ (supplier_ids.all (fun sid =>
        s0.suppliers.any (fun sp => sp.id == sid))) then
      Except.error InviteError.suppliers_missing
    else
      -- `suppliers = db.query(SupplierProfile).filter(id.in_(...)).all()`
      let named := s0.suppliers.filter (fun sp => supplier_ids.contains sp.id)
      let prepared := ensure_request_rfq req deadline s0
      let s1 := prepared.1
      let the_rfq_id := prepared.2
      let invited_ids := (s1.invitations.filter
        (fun inv => inv.rfq_id == the_rfq_id)).map (fun inv => inv.supplier_id)
      let new_suppliers := named.filter
        (fun sp => ¬ invited_ids.contains sp.id)
      if new_suppliers = [] then
        Except.error InviteError.all_already_invited
      else
        let created := create_invitations now the_rfq_id
          (new_suppliers.map (fun sp => sp.id)) s1
        Except.ok
          ({ created.1 with
              requests := created.1.requests.map (fun r =>
                if r.id == request_id then
                  { r with rfq_invited_at := some now,
                           status := RequestStatus.rfq_issued,
                           rfq_id := some the_rfq_id }
                else r) }, created.2)

/-! ### Direct RFQ creation and draft approval (`rfqs.py` 150-333) -/

inductive CreateRfqError
  | role_not_allowed    -- 403 require_roles(procurement, procurement_officer, superadmin)
  | deadline_not_future -- 400 "Deadline must be in the future"
  | suppliers_missing   -- 400 "One or more supplier IDs not found"
deriving DecidableEq, Repr

def CreateRfqError.kind : CreateRfqError → ErrKind
  | CreateRfqError.role_not_allowed => ErrKind.forbidden
  | CreateRfqError.deadline_not_future => ErrKind.validation
  | CreateRfqError.suppliers_missing => ErrKind.not_found

/-- `create_rfq` (`rfqs.py` 155-252).  The deadline is normalized to
Africa/Cairo (`_normalize_deadline`): an aware value keeps its instant, a
naive one is tagged as Cairo wall time; it must lie strictly in the
future.  A procurement officer gets a `draft` RFQ with no invitations;
procurement / superadmin get an `open` RFQ whose invitations go to the
named suppliers, or to the fairness selector's pick for the category when
none are named (`batch` models `settings.invitation_batch_size`). -/
def create_rfq (now cairo_offset : Int) (actor : Actor)
    (title category : String) (budget : Int) (deadline : DBTime)
    (supplier_ids : List Nat) (batch : Option Nat) (s0 : State) :
    Except CreateRfqError (State × Nat) :=
  if ¬ (actor.role = Role.procurement ∨ actor.role = Role.procurement_officer ∨
        actor.role = Role.superadmin) then
    Except.error CreateRfqError.role_not_allowed
  else
  let s := sweep now s0
  let instant := read_instant cairo_offset deadline
  if instant ≤ now then Except.error CreateRfqError.deadline_not_future
  else
  let st := if actor.role = Role.procurement_officer then RFQStatus.draft
            else RFQStatus.opened
  let rid := s.next_rfq_id
  let s1 :=
    { s with
      rfqs := s.rfqs ++
        [{ id := rid, title := title, category := category, budget := budget,
           deadline := some (DBTime.aware instant), status := st,
           response_locked := false,
           budget_override_justification := none }],
      next_rfq_id := rid + 1 }
  if st = RFQStatus.opened then
    if supplier_ids ≠ [] then
      if ¬ (supplier_ids.all (fun sid =>
          s1.suppliers.any (fun sp => sp.id == sid))) then
        Except.error CreateRfqError.suppliers_missing
      else
        Except.ok ((create_invitations now rid
          ((s1.suppliers.filter (fun sp => supplier_ids.contains sp.id)).map
            (fun sp => sp.id)) s1).1, rid)
    else
      Except.ok ((create_invitations now rid
        ((select_suppliers_for_rfq category batch s1).map (fun sp => sp.id))
        s1).1, rid)
  else
    Except.ok (s1, rid)

inductive ApproveDraftError
  | role_not_allowed  -- 403 require_roles(superadmin, procurement)
  | rfq_not_found     -- 404 "RFQ not found"
  | not_draft         -- 400 "Can only approve RFQs in draft status ..."
  | suppliers_missing -- 400 "One or more supplier IDs not found"
deriving DecidableEq, Repr

def ApproveDraftError.kind : ApproveDraftError → ErrKind
  | ApproveDraftError.role_not_allowed => ErrKind.forbidden
  | ApproveDraftError.rfq_not_found => ErrKind.not_found
  | ApproveDraftError.not_draft => ErrKind.invalid_state
  | ApproveDraftError.suppliers_missing => ErrKind.not_found

/-- `approve_draft_rfq` (`rfqs.py` 255-333): transitions a draft RFQ to
`open` and creates invitations (named suppliers, or the fairness
selector's pick).  No deadline sweep runs on this route. -/
def approve_draft_rfq (now : Int) (actor : Actor) (rfq_id : Nat)
    (supplier_ids : List Nat) (batch : Option Nat) (s : State) :
    Except ApproveDraftError State :=
  if ¬ (actor.role = Role.superadmin ∨ actor.role = Role.procurement) then
    Except.error ApproveDraftError.role_not_allowed
  else
  match findRfq s rfq_id with
  | none => Except.error ApproveDraftError.rfq_not_found
  | some rfq =>
    if ¬ rfq.status = RFQStatus.draft then
      Except.error ApproveDraftError.not_draft
    else
      let s1 := { s with rfqs := s.rfqs.map (fun r =>
        if r.id == rfq_id then { r with status := RFQStatus.opened } else r) }
      if supplier_ids ≠ [] then
        if ¬ (supplier_ids.all (fun sid =>
            s1.suppliers.any (fun sp => sp.id == sid))) then
          Except.error ApproveDraftError.suppliers_missing
        else
          Except.ok (create_invitations now rfq_id
            ((s1.suppliers.filter (fun sp => supplier_ids.contains sp.id)).map
              (fun sp => sp.id)) s1).1
      else
        Except.ok (create_invitations now rfq_id
          ((select_suppliers_for_rfq rfq.category batch s1).map
            (fun sp => sp.id)) s1).1

/-! ### The transition system

One constructor per modelled endpoint.  `exec` applies an operation and,
when the route fails, keeps the pre-call state (the FastAPI session rolls
the transaction back on any exception). -/

inductive Op
  | op_sweep (now : Int)
  | op_create_rfq (now cairo_offset : Int) (actor : Actor)
      (title category : String) (budget : Int) (deadline : DBTime)
      (supplier_ids : List Nat) (batch : Option Nat)
  | op_approve_draft (now : Int) (actor : Actor) (rfq_id : Nat)
      (supplier_ids : List Nat) (batch : Option Nat)
  | op_read (now cairo_offset : Int) (actor : Actor) (rfq_id : Nat)
  | op_submit (now : Int) (actor : Actor) (supplier_profile_id rfq_id : Nat)
      (amount : Int)
  | op_request_finance (now : Int) (actor : Actor) (rfq_id quotation_id : Nat)
      (justification : String)
  | op_approve (now : Int) (actor : Actor) (rfq_id quotation_id : Nat)
      (override : Option String)
  | op_reject (actor : Actor) (rfq_id quotation_id : Nat)
  | op_create_request (actor : Actor) (department_id : Nat)
      (title category : String)
  | op_invite (now : Int) (actor : Actor) (request_id : Nat)
      (supplier_ids : List Nat) (deadline : DBTime)

/-- Resulting state of one endpoint call (errors roll back). -/
def exec (op : Op) (s : State) : State :=
  match op with
  | Op.op_sweep now => sweep now s
  | Op.op_create_rfq now off a t c b d ids batch =>
    match create_rfq now off a t c b d ids batch s with
    | Except.ok r => r.1
    | Except.error _ => s
  | Op.op_approve_draft now a rid ids batch =>
    match approve_draft_rfq now a rid ids batch s with
    | Except.ok s2 => s2
    | Except.error _ => s
  | Op.op_read now off a rid =>
    match read_rfq now off a rid s with
    | Except.ok r => r.1
    | Except.error _ => s
  | Op.op_submit now a pid rid amt =>
    match submit_quotation now a pid rid amt s with
    | Except.ok r => r.1
    | Except.error _ => s
  | Op.op_request_finance now a rid qid j =>
    match request_finance_approval now a rid qid j s with
    | Except.ok s2 => s2
    | Except.error _ => s
  | Op.op_approve now a rid qid ov =>
    match approve_quotation now a rid qid ov s with
    | Except.ok s2 => s2
    | Except.error _ => s
  | Op.op_reject a rid qid =>
    match reject_quotation a rid qid s with
    | Except.ok s2 => s2
    | Except.error _ => s
  | Op.op_create_request a d t c =>
    match create_request a d t c s with
    | Except.ok r => r.1
    | Except.error _ => s
  | Op.op_invite now a rid ids d =>
    match invite_suppliers now a rid ids d s with
    | Except.ok r => r.1
    | Except.error _ => s

/-- Run a sequence of endpoint calls. -/
def run (ops : List Op) (s : State) : State :=
  ops.foldl (fun st op => exec op st) s

/-- An admissible initial state: the procurement tables start empty
(users, suppliers and departments are seeded out of band). -/
def InitState (s : State) : Prop :=
  s.quotations = [] ∧ s.rfqs = [] ∧ s.invitations = [] ∧ s.requests = []

/-- A state of the store reachable from some admissible initial state by
a sequence of endpoint calls. -/
def Reachable (s : State) : Prop :=
  ∃ s0 ops, InitState s0 ∧ s = run ops s0

/-- Quotation primary keys are pairwise distinct and below the
autoincrement counter. -/
def QuotIdsOk (s : State) : Prop :=
  (s.quotations.map (fun q => q.id)).Nodup ∧
    ∀ q ∈ s.quotations, q.id < s.next_quotation_id

/-- Is quotation `q` an approved quotation of RFQ `r`? -/
def approved_on (r : Nat) (q : Quotation) : Bool :=
  q.rfq_id == r && q.status == QuotationStatus.approved

/-- The single-winner invariant: per RFQ, at most one approved
quotation. -/
def AtMostOneApproved (s : State) : Prop :=
  ∀ r : Nat, s.quotations.countP (approved_on r) ≤ 1

/-- The inductive invariant for the award protocol. -/
def Inv (s : State) : Prop :=
  QuotIdsOk s ∧ AtMostOneApproved s

/-! ### Generic list lemmas -/

theorem find?_map_of_pred {α : Type} (f : α → α) (p : α → Bool)
    (hp : ∀ x, p (f x) = p x) :
    ∀ l : List α, (l.map f).find? p = (l.find? p).map f := by
  intro l
  induction l with
  | nil => rfl
  | cons x xs ih =>
    by_cases hx : p x = true
    · simp [List.find?, hp, hx]
    · simp only [Bool.not_eq_true] at hx
      simp [List.find?, hp, hx, ih]

theorem updateFirst_of_find? {α : Type} {p : α → Bool} {f : α → α}
    {l : List α} {a : α} (h : l.find? p = some a) :
    f a ∈ updateFirst p f l := by
  induction l with
  | nil => simp [List.find?] at h
  | cons x xs ih =>
    by_cases hx : p x = true
    · simp only [List.find?, hx] at h
      simp only [Option.some.injEq] at h
      subst h
      simp [updateFirst, hx]
    · simp only [Bool.not_eq_true] at hx
      simp only [List.find?, hx] at h
      simp [updateFirst, hx, ih h]

theorem updateFirst_mem_of_no_match {α : Type} {p : α → Bool} {f : α → α}
    {l : List α} {a : α} (ha : a ∈ l) (hp : p a = false) :
    a ∈ updateFirst p f l := by
  induction l with
  | nil => simp at ha
  | cons x xs ih =>
    rcases List.mem_cons.1 ha with rfl | hmem
    · simp [updateFirst, hp]
    · by_cases hx : p x = true
      · simp [updateFirst, hx, hmem]
      · simp only [Bool.not_eq_true] at hx
        simp [updateFirst, hx, ih hmem]

theorem two_le_countP {α : Type} {l : List α} {p : α → Bool} {a b : α}
    (ha : a ∈ l) (hb : b ∈ l) (hab : a ≠ b)
    (hpa : p a = true) (hpb : p b = true) : 2 ≤ l.countP p := by
  obtain ⟨l1, l2, rfl⟩ := List.append_of_mem ha
  have hb2 : b ∈ l1 ∨ b ∈ l2 := by
    rcases List.mem_append.1 hb with h1 | h2
    · exact Or.inl h1
    · rcases List.mem_cons.1 h2 with rfl | h3
      · exact absurd rfl hab.symm
      · exact Or.inr h3
  rcases hb2 with h1 | h2
  · have := List.countP_pos_iff (p := p) (l := l1) |>.2 ⟨b, h1, hpb⟩
    simp [List.countP_append, List.countP_cons, hpa]
    omega
  · have := List.countP_pos_iff (p := p) (l := l2) |>.2 ⟨b, h2, hpb⟩
    simp [List.countP_append, List.countP_cons, hpa]
    omega

/-! ### Field-preservation lemmas for the operations -/

theorem sweep_quotations (now : Int) (s : State) :
    (sweep now s).quotations = s.quotations := rfl

theorem close_one_id (now : Int) (r : RFQ) : (close_one now r).id = r.id := by
  unfold close_one
  split <;> rfl

theorem findRfq_sweep (now : Int) (s : State) (rid : Nat) :
    findRfq (sweep now s) rid = (findRfq s rid).map (close_one now) := by
  unfold findRfq sweep
  exact find?_map_of_pred _ _ (fun r => by rw [close_one_id]) s.rfqs

theorem create_invitations_fields (now : Int) (rid : Nat)
    (ids : List Nat) (s : State) :
    (create_invitations now rid ids s).1.quotations = s.quotations ∧
    (create_invitations now rid ids s).1.rfqs = s.rfqs ∧
    (create_invitations now rid ids s).1.requests = s.requests ∧
    (create_invitations now rid ids s).1.next_quotation_id =
      s.next_quotation_id := by
  unfold create_invitations
  induction ids generalizing s with
  | nil => exact ⟨rfl, rfl, rfl, rfl⟩
  | cons x xs ih => simpa [List.foldl_cons] using ih _

theorem create_rfq_quots {now off : Int} {a : Actor} {t c : String}
    {b : Int} {d : DBTime} {ids : List Nat} {batch : Option Nat} {s : State}
    {r : State × Nat}
    (h : create_rfq now off a t c b d ids batch s = Except.ok r) :
    r.1.quotations = s.quotations ∧
      r.1.next_quotation_id = s.next_quotation_id := by
  by_cases hrole : a.role = Role.procurement ∨ a.role = Role.procurement_officer ∨
      a.role = Role.superadmin
  case neg => simp [create_rfq, hrole] at h
  by_cases hd : read_instant off d ≤ now
  case pos => simp [create_rfq, hrole, hd] at h
  by_cases hoff : a.role = Role.procurement_officer
  · simp [create_rfq, hrole, hd, hoff] at h
    obtain ⟨rfl, rfl⟩ := h
    exact ⟨rfl, rfl⟩
  · have hpr : a.role = Role.procurement ∨ a.role = Role.superadmin := by
      rcases hrole with h1 | h1 | h1
      · exact Or.inl h1
      · exact absurd h1 hoff
      · exact Or.inr h1
    by_cases hids : ids = []
    · rcases hpr with h1 | h1 <;>
      · simp [create_rfq, h1, hd, hoff, hids] at h
        obtain ⟨rfl, rfl⟩ := h
        exact ⟨(create_invitations_fields _ _ _ _).1,
          (create_invitations_fields _ _ _ _).2.2.2⟩
    · by_cases hall : (ids.all fun sid =>
          (sweep now s).suppliers.any fun sp => sp.id == sid) = true
      · rcases hpr with h1 | h1 <;>
        · simp [create_rfq, h1, hd, hoff, hids, hall] at h
          obtain ⟨rfl, rfl⟩ := h
          exact ⟨(create_invitations_fields _ _ _ _).1,
            (create_invitations_fields _ _ _ _).2.2.2⟩
      · rcases hpr with h1 | h1 <;>
          simp [create_rfq, h1, hd, hoff, hids, hall] at h

theorem approve_draft_quots {now : Int} {a : Actor} {rid : Nat}
    {ids : List Nat} {batch : Option Nat} {s s2 : State}
    (h : approve_draft_rfq now a rid ids batch s = Except.ok s2) :
    s2.quotations = s.quotations ∧
      s2.next_quotation_id = s.next_quotation_id := by
  by_cases hrole : a.role = Role.superadmin ∨ a.role = Role.procurement
  case neg => simp [approve_draft_rfq, hrole] at h
  cases hfind : findRfq s rid with
  | none => simp [approve_draft_rfq, hrole, hfind] at h
  | some rfq =>
    by_cases hdraft : rfq.status = RFQStatus.draft
    case neg => simp [approve_draft_rfq, hrole, hfind, hdraft] at h
    by_cases hids : ids = []
    · simp [approve_draft_rfq, hrole, hfind, hdraft, hids] at h
      subst h
      exact ⟨(create_invitations_fields _ _ _ _).1,
        (create_invitations_fields _ _ _ _).2.2.2⟩
    · by_cases hall : (ids.all fun sid =>
          s.suppliers.any fun sp => sp.id == sid) = true
      · simp [approve_draft_rfq, hrole, hfind, hdraft, hids, hall] at h
        subst h
        exact ⟨(create_invitations_fields _ _ _ _).1,
          (create_invitations_fields _ _ _ _).2.2.2⟩
      · simp [approve_draft_rfq, hrole, hfind, hdraft, hids, hall] at h

theorem read_rfq_quots {now off : Int} {a : Actor} {rid : Nat} {s : State}
    {r : State × RFQPayload}
    (h : read_rfq now off a rid s = Except.ok r) :
    r.1.quotations = s.quotations ∧
      r.1.next_quotation_id = s.next_quotation_id := by
  by_cases hrole : a.role = Role.superadmin ∨ a.role = Role.procurement ∨
      a.role = Role.procurement_officer ∨ a.role = Role.requester ∨
      a.role = Role.finance
  case neg => simp [read_rfq, hrole] at h
  cases hfind : findRfq (sweep now s) rid with
  | none =>
    simp only [read_rfq, hfind] at h
    rw [if_neg (not_not_intro hrole)] at h
    cases h
  | some rfq =>
    simp only [read_rfq, hfind] at h
    rw [if_neg (not_not_intro hrole)] at h
    repeat' split at h
    all_goals simp only [Except.ok.injEq] at h
    all_goals subst h
    all_goals exact ⟨rfl, rfl⟩

theorem create_request_quots {a : Actor} {dept : Nat} {t c : String}
    {s : State} {r : State × Nat}
    (h : create_request a dept t c s = Except.ok r) :
    r.1.quotations = s.quotations ∧
      r.1.next_quotation_id = s.next_quotation_id := by
  unfold create_request at h
  split at h
  · cases h
  · split at h
    · cases h
    · simp only [Except.ok.injEq] at h
      subst h
      exact ⟨rfl, rfl⟩

theorem ensure_request_rfq_fields (req : PurchaseRequest) (d : DBTime)
    (s0 : State) :
    (ensure_request_rfq req d s0).1.quotations = s0.quotations ∧
      (ensure_request_rfq req d s0).1.invitations = s0.invitations ∧
      (ensure_request_rfq req d s0).1.suppliers = s0.suppliers ∧
      (ensure_request_rfq req d s0).1.requests = s0.requests ∧
      (ensure_request_rfq req d s0).1.next_quotation_id =
        s0.next_quotation_id := by
  unfold ensure_request_rfq
  cases hr : req.rfq_id with
  | none => exact ⟨rfl, rfl, rfl, rfl, rfl⟩
  | some rid =>
    simp only [hr]
    cases hf : findRfq s0 rid with
    | none => simp [hf]
    | some r => simp [hf]

theorem invite_suppliers_quots {now : Int} {a : Actor} {reqid : Nat}
    {ids : List Nat} {d : DBTime} {s : State} {r : State × Nat}
    (h : invite_suppliers now a reqid ids d s = Except.ok r) :
    r.1.quotations = s.quotations ∧
      r.1.next_quotation_id = s.next_quotation_id := by
  unfold invite_suppliers at h
  split at h
  · cases h
  · split at h
    · cases h
    · split at h
      · cases h
      · split at h
        · cases h
        · split at h
          · cases h
          · split at h
            · cases h
            · simp only at h
              split at h
              · cases h
              · simp only [Except.ok.injEq] at h
                subst h
                refine ⟨?_, ?_⟩
                · exact ((create_invitations_fields _ _ _ _).1).trans
                    (ensure_request_rfq_fields _ _ _).1
                · exact ((create_invitations_fields _ _ _ _).2.2.2).trans
                    (ensure_request_rfq_fields _ _ _).2.2.2.2

theorem submit_ok_quots {now : Int} {a : Actor} {pid rid : Nat} {amt : Int}
    {s : State} {r : State × Nat}
    (h : submit_quotation now a pid rid amt s = Except.ok r) :
    ∃ q : Quotation, q.id = s.next_quotation_id ∧
      q.status = QuotationStatus.submitted ∧
      r.1.quotations = s.quotations ++ [q] ∧
      r.1.next_quotation_id = s.next_quotation_id + 1 := by
  unfold submit_quotation at h
  split at h
  · cases h
  · simp only at h
    split at h
    · cases h
    · split at h
      · cases h
      · split at h
        · cases h
        · split at h
          · cases h
          · simp only [Except.ok.injEq] at h
            subst h
            exact ⟨_, rfl, rfl, rfl, rfl⟩

theorem request_finance_ok_quots {now : Int} {a : Actor} {rid qid : Nat}
    {j : String} {s s2 : State}
    (h : request_finance_approval now a rid qid j s = Except.ok s2) :
    s2.quotations = s.quotations.map
      (escalate_quotation_row now a rid qid j) ∧
      s2.next_quotation_id = s.next_quotation_id := by
  unfold request_finance_approval at h
  split at h
  · cases h
  · simp only at h
    split at h
    · cases h
    · split at h
      · cases h
      · split at h
        · cases h
        · simp only [Except.ok.injEq] at h
          subst h
          exact ⟨rfl, rfl⟩

theorem reject_ok_quots {a : Actor} {rid qid : Nat} {s s2 : State}
    (h : reject_quotation a rid qid s = Except.ok s2) :
    s2.quotations = s.quotations.map (reject_quotation_row rid qid) ∧
      s2.next_quotation_id = s.next_quotation_id := by
  unfold reject_quotation at h
  split at h
  · cases h
  · split at h
    · cases h
    · split at h
      · cases h
      · simp only [Except.ok.injEq] at h
        subst h
        exact ⟨rfl, rfl⟩

theorem approve_ok_quots {now : Int} {a : Actor} {rid qid : Nat}
    {ov : Option String} {s s2 : State}
    (h : approve_quotation now a rid qid ov s = Except.ok s2) :
    (s2.quotations = s.quotations ∧
      s2.next_quotation_id = s.next_quotation_id) ∨
    (s2.quotations = s.quotations.map (award_quotation_row now a rid qid ov) ∧
      s2.next_quotation_id = s.next_quotation_id) := by
  unfold approve_quotation at h
  split at h
  · cases h
  · simp only at h
    split at h
    · cases h
    · split at h
      · simp only [Except.ok.injEq] at h
        subst h
        exact Or.inl ⟨rfl, rfl⟩
      · split at h
        · cases h
        · split at h
          · cases h
          · split at h
            · cases h
            · split at h
              · cases h
              · simp only [Except.ok.injEq] at h
                subst h
                exact Or.inr ⟨rfl, rfl⟩

/-! ### The single-winner invariant is inductive -/

theorem escalate_row_id (now : Int) (a : Actor) (rid qid : Nat) (j : String)
    (q : Quotation) : (escalate_quotation_row now a rid qid j q).id = q.id := by
  unfold escalate_quotation_row
  split <;> rfl

theorem escalate_row_no_approve (now : Int) (a : Actor) (rid qid : Nat)
    (j : String) (q : Quotation) (r : Nat)
    (h : approved_on r (escalate_quotation_row now a rid qid j q) = true) :
    approved_on r q = true := by
  unfold escalate_quotation_row at h
  split at h
  · simp [approved_on] at h
  · exact h

theorem reject_row_id (rid qid : Nat) (q : Quotation) :
    (reject_quotation_row rid qid q).id = q.id := by
  unfold reject_quotation_row
  split <;> rfl

theorem reject_row_no_approve (rid qid : Nat) (q : Quotation) (r : Nat)
    (h : approved_on r (reject_quotation_row rid qid q) = true) :
    approved_on r q = true := by
  unfold reject_quotation_row at h
  split at h
  · simp [approved_on] at h
  · exact h

theorem award_row_id (now : Int) (a : Actor) (rid qid : Nat)
    (ov : Option String) (q : Quotation) :
    (award_quotation_row now a rid qid ov q).id = q.id := by
  unfold award_quotation_row
  split
  · rfl
  · split
    · split <;> rfl
    · rfl

/-- After the award cascade, the approved quotations of RFQ `rid` are
exactly the rows that matched the target key. -/
theorem award_row_approved_on_rid (now : Int) (a : Actor) (rid qid : Nat)
    (ov : Option String) (q : Quotation) :
    approved_on rid (award_quotation_row now a rid qid ov q) =
      (q.id == qid && q.rfq_id == rid) := by
  by_cases hid : (q.id == qid) = true <;>
    by_cases hrfq : (q.rfq_id == rid) = true <;>
      by_cases hrej : q.status = QuotationStatus.rejected <;>
        simp [award_quotation_row, approved_on, hid, hrfq, hrej]

/-- The cascade does not change whether a row is an approved quotation of
any RFQ other than the awarded one. -/
theorem award_row_approved_on_other (now : Int) (a : Actor) (rid qid : Nat)
    (ov : Option String) (q : Quotation) (r : Nat) (hr : r ≠ rid) :
    approved_on r (award_quotation_row now a rid qid ov q) =
      approved_on r q := by
  by_cases hid : (q.id == qid) = true <;>
    by_cases hrfq : (q.rfq_id == rid) = true <;>
      by_cases hqr : (q.rfq_id == r) = true <;>
        by_cases hrej : q.status = QuotationStatus.rejected <;>
          first
          | (exact absurd ((eq_of_beq hqr).symm.trans (eq_of_beq hrfq)) hr)
          | simp [award_quotation_row, approved_on, hid, hrfq, hqr, hrej]

theorem countP_id_le_one {l : List Quotation}
    (hnodup : (l.map (fun q => q.id)).Nodup) (qid : Nat) :
    l.countP (fun q => q.id == qid) ≤ 1 := by
  have h1 : l.countP (fun q => q.id == qid) =
      (l.map (fun q => q.id)).count qid := by
    rw [List.count_eq_countP, List.countP_map]
    rfl
  rw [h1]
  exact List.nodup_iff_count_le_one.1 hnodup qid

/-- Invariant preservation through an id-preserving, non-approving row
map. -/
theorem inv_map_no_approve {s : State} (h : Inv s)
    {f : Quotation → Quotation}
    (hid : ∀ q, (f q).id = q.id)
    (hna : ∀ q r, approved_on r (f q) = true → approved_on r q = true)
    {s2 : State} (hq : s2.quotations = s.quotations.map f)
    (hn : s2.next_quotation_id = s.next_quotation_id) : Inv s2 := by
  obtain ⟨⟨hnd, hlt⟩, hone⟩ := h
  refine ⟨⟨?_, ?_⟩, ?_⟩
  · rw [hq, List.map_map]
    have : ((fun q => q.id) ∘ f) = (fun q : Quotation => q.id) :=
      funext hid
    rw [this]
    exact hnd
  · intro q hqmem
    rw [hq] at hqmem
    obtain ⟨x, hx, rfl⟩ := List.mem_map.1 hqmem
    rw [hid, hn]
    exact hlt x hx
  · intro r
    rw [hq, List.countP_map]
    calc s.quotations.countP (approved_on r ∘ f)
        ≤ s.quotations.countP (approved_on r) :=
          List.countP_mono_left (fun x _ hx => hna x r hx)
      _ ≤ 1 := hone r

/-- State invariance helper: nothing quotation-related changed. -/
theorem inv_of_same {s s2 : State} (h : Inv s)
    (hq : s2.quotations = s.quotations)
    (hn : s2.next_quotation_id = s.next_quotation_id) : Inv s2 := by
  obtain ⟨⟨hnd, hlt⟩, hone⟩ := h
  refine ⟨⟨?_, ?_⟩, ?_⟩
  · rw [hq]; exact hnd
  · intro q hqmem
    rw [hq] at hqmem
    rw [hn]
    exact hlt q hqmem
  · intro r
    rw [hq]
    exact hone r

/-- Invariant preservation through the award cascade. -/
theorem inv_award {s : State} (h : Inv s) (now : Int) (a : Actor)
    (rid qid : Nat) (ov : Option String) {s2 : State}
    (hq : s2.quotations = s.quotations.map (award_quotation_row now a rid qid ov))
    (hn : s2.next_quotation_id = s.next_quotation_id) : Inv s2 := by
  obtain ⟨⟨hnd, hlt⟩, hone⟩ := h
  refine ⟨⟨?_, ?_⟩, ?_⟩
  · rw [hq, List.map_map]
    have : ((fun q => q.id) ∘ award_quotation_row now a rid qid ov) =
        (fun q : Quotation => q.id) := funext (award_row_id now a rid qid ov)
    rw [this]
    exact hnd
  · intro q hqmem
    rw [hq] at hqmem
    obtain ⟨x, hx, rfl⟩ := List.mem_map.1 hqmem
    rw [award_row_id, hn]
    exact hlt x hx
  · intro r
    rcases eq_or_ne r rid with rfl | hr
    · rw [hq, List.countP_map]
      have heq : s.quotations.countP
          (approved_on r ∘ award_quotation_row now a r qid ov) =
            s.quotations.countP (fun q => q.id == qid && q.rfq_id == r) :=
        List.countP_congr (fun x _ => by
          simp only [Function.comp_apply, award_row_approved_on_rid])
      rw [heq]
      calc s.quotations.countP (fun q => q.id == qid && q.rfq_id == r)
          ≤ s.quotations.countP (fun q => q.id == qid) :=
            List.countP_mono_left (fun x _ hx => by
              revert hx
              cases x.id == qid <;> simp)
        _ ≤ 1 := countP_id_le_one hnd qid
    · rw [hq, List.countP_map]
      have heq : s.quotations.countP
          (approved_on r ∘ award_quotation_row now a rid qid ov) =
            s.quotations.countP (approved_on r) :=
        List.countP_congr (fun x _ => by
          simp only [Function.comp_apply,
            award_row_approved_on_other now a rid qid ov x r hr])
      rw [heq]
      exact hone r

/-- Invariant preservation through a successful submission. -/
theorem inv_submit {s : State} (h : Inv s) {now : Int} {a : Actor}
    {pid rid : Nat} {amt : Int} {r : State × Nat}
    (hok : submit_quotation now a pid rid amt s = Except.ok r) : Inv r.1 := by
  obtain ⟨q, hqid, hqst, hq, hn⟩ := submit_ok_quots hok
  obtain ⟨⟨hnd, hlt⟩, hone⟩ := h
  refine ⟨⟨?_, ?_⟩, ?_⟩
  · rw [hq, List.map_append]
    rw [List.nodup_append]
    refine ⟨hnd, by simp, ?_⟩
    intro x hx
    simp only [List.map_cons, List.map_nil, List.mem_singleton, hqid]
    obtain ⟨y, hy, rfl⟩ := List.mem_map.1 hx
    exact fun hcontra => absurd (hcontra ▸ hlt y hy) (lt_irrefl _)
  · intro x hx
    rw [hq] at hx
    rw [hn]
    rcases List.mem_append.1 hx with h1 | h1
    · exact lt_trans (hlt x h1) (Nat.lt_succ_self _)
    · rw [List.mem_singleton.1 h1, hqid]
      exact Nat.lt_succ_self _
  · intro rq
    rw [hq, List.countP_append]
    have : List.countP (approved_on rq) [q] = 0 := by
      simp [approved_on, hqst]
    rw [this]
    simpa using hone rq

/-- All endpoint calls preserve the invariant. -/
theorem inv_exec (op : Op) {s : State} (h : Inv s) : Inv (exec op s) := by
  cases op with
  | op_sweep now => exact h
  | op_create_rfq now off a t c b d ids batch =>
    cases hr : create_rfq now off a t c b d ids batch s with
    | error e => simpa only [exec, hr] using h
    | ok r =>
      obtain ⟨h1, h2⟩ := create_rfq_quots hr
      simpa only [exec, hr] using inv_of_same h h1 h2
  | op_approve_draft now a rid ids batch =>
    cases hr : approve_draft_rfq now a rid ids batch s with
    | error e => simpa only [exec, hr] using h
    | ok s2 =>
      obtain ⟨h1, h2⟩ := approve_draft_quots hr
      simpa only [exec, hr] using inv_of_same h h1 h2
  | op_read now off a rid =>
    cases hr : read_rfq now off a rid s with
    | error e => simpa only [exec, hr] using h
    | ok r =>
      obtain ⟨h1, h2⟩ := read_rfq_quots hr
      simpa only [exec, hr] using inv_of_same h h1 h2
  | op_submit now a pid rid amt =>
    cases hr : submit_quotation now a pid rid amt s with
    | error e => simpa only [exec, hr] using h
    | ok r => simpa only [exec, hr] using inv_submit h hr
  | op_request_finance now a rid qid j =>
    cases hr : request_finance_approval now a rid qid j s with
    | error e => simpa only [exec, hr] using h
    | ok s2 =>
      obtain ⟨h1, h2⟩ := request_finance_ok_quots hr
      simpa only [exec, hr] using
        inv_map_no_approve h (escalate_row_id now a rid qid j)
          (fun q r2 => escalate_row_no_approve now a rid qid j q r2) h1 h2
  | op_approve now a rid qid ov =>
    cases hr : approve_quotation now a rid qid ov s with
    | error e => simpa only [exec, hr] using h
    | ok s2 =>
      rcases approve_ok_quots hr with ⟨h1, h2⟩ | ⟨h1, h2⟩
      · simpa only [exec, hr] using inv_of_same h h1 h2
      · simpa only [exec, hr] using inv_award h now a rid qid ov h1 h2
  | op_reject a rid qid =>
    cases hr : reject_quotation a rid qid s with
    | error e => simpa only [exec, hr] using h
    | ok s2 =>
      obtain ⟨h1, h2⟩ := reject_ok_quots hr
      simpa only [exec, hr] using
        inv_map_no_approve h (reject_row_id rid qid)
          (fun q r2 => reject_row_no_approve rid qid q r2) h1 h2
  | op_create_request a dept t c =>
    cases hr : create_request a dept t c s with
    | error e => simpa only [exec, hr] using h
    | ok r =>
      obtain ⟨h1, h2⟩ := create_request_quots hr
      simpa only [exec, hr] using inv_of_same h h1 h2
  | op_invite now a reqid ids d =>
    cases hr : invite_suppliers now a reqid ids d s with
    | error e => simpa only [exec, hr] using h
    | ok r =>
      obtain ⟨h1, h2⟩ := invite_suppliers_quots hr
      simpa only [exec, hr] using inv_of_same h h1 h2

/-- The invariant holds in every reachable state. -/
theorem reachable_inv {s : State} (h : Reachable s) : Inv s := by
  obtain ⟨s0, ops, hinit, rfl⟩ := h
  have h0 : Inv s0 := by
    obtain ⟨hq, _, _, _⟩ := hinit
    refine ⟨⟨?_, ?_⟩, ?_⟩
    · rw [hq]; exact List.nodup_nil
    · intro q hqmem
      rw [hq] at hqmem
      exact absurd hqmem (List.not_mem_nil q)
    · intro r
      rw [hq]
      simp [List.countP_nil]
  clear hinit
  induction ops generalizing s0 with
  | nil => exact h0
  | cons op ops ih => exact ih (exec op s0) (inv_exec op h0)

/-! ### Claim theorems -/

theorem close_one_expires_false (now : Int) (r : RFQ) :
    rfq_expires now (close_one now r) = false := by
  unfold close_one
  by_cases h : rfq_expires now r = true
  · rw [if_pos h]
    simp [rfq_expires]
  · rw [if_neg h]
    exact Bool.not_eq_true _ ▸ h

theorem close_one_idem (now : Int) (r : RFQ) :
    close_one now (close_one now r) = close_one now r := by
  unfold close_one
  by_cases h : rfq_expires now r = true
  · rw [if_pos h]
    rw [if_neg ?_]
    simp [rfq_expires]
  · rw [if_neg h, if_neg h]

/-- C6.  `close_expired_rfqs` closes exactly the open RFQs whose deadline
(under the sweep's comparison) is at or before `now`, clearing their
response lock; every other RFQ row is untouched; and an immediate second
run returns the same state with a count of zero. -/
theorem claim_C6 (now : Int) (s : State) :
    (∀ r ∈ s.rfqs,
      (∀ d, r.status = RFQStatus.opened → r.deadline = some d →
        sweep_deadline_passed now d = true →
          { r with status := RFQStatus.closed, response_locked := false } ∈
            (close_expired_rfqs now s).1.rfqs) ∧
      (rfq_expires now r = false → r ∈ (close_expired_rfqs now s).1.rfqs)) ∧
    close_expired_rfqs now (close_expired_rfqs now s).1 =
      ((close_expired_rfqs now s).1, 0) := by
  constructor
  · intro r hr
    constructor
    · intro d hst hd hpass
      have hexp : rfq_expires now r = true := by
        simp [rfq_expires, hst, hd, hpass]
      have : close_one now r =
          { r with status := RFQStatus.closed, response_locked := false } := by
        unfold close_one
        rw [if_pos hexp]
      exact this ▸ List.mem_map_of_mem (close_one now) hr
    · intro hnot
      have : close_one now r = r := by
        unfold close_one
        rw [if_neg (by simp [hnot])]
      exact this ▸ List.mem_map_of_mem (close_one now) hr
  · unfold close_expired_rfqs sweep
    simp only [List.map_map, Prod.mk.injEq]
    constructor
    · rw [show close_one now ∘ close_one now = close_one now from
        funext (close_one_idem now)]
    · rw [List.countP_map]
      rw [List.countP_eq_zero]
      intro r _
      simp [Function.comp, close_one_expires_false]

/-- An open, response-locked RFQ whose deadline (instant 5) is at or
before the C6 witness clock (instant 10). -/
def c6_r : RFQ :=
  { id := 0, title := "T", category := "X", budget := 100,
    deadline := some (DBTime.aware 5), status := RFQStatus.opened,
    response_locked := true, budget_override_justification := none }

/-- A store holding exactly the expired RFQ `c6_r`. -/
def c6_state : State :=
  { rfqs := [c6_r], quotations := [], invitations := [], suppliers := [],
    requests := [], departments := [],
    next_quotation_id := 0, next_rfq_id := 0, next_request_id := 0 }

/-- Witness for C6 at the concrete store `c6_state` and clock 10: the
expired RFQ is closed and unlocked by the sweep, and the second run is a
no-op. -/
theorem claim_C6_witness :
    ({ c6_r with status := RFQStatus.closed, response_locked := false } ∈
      (close_expired_rfqs 10 c6_state).1.rfqs) ∧
    close_expired_rfqs 10 (close_expired_rfqs 10 c6_state).1 =
      ((close_expired_rfqs 10 c6_state).1, 0) :=
  ⟨((claim_C6 10 c6_state).1 c6_r (by decide)).1 (DBTime.aware 5) rfl rfl
    (by decide),
   (claim_C6 10 c6_state).2⟩

/-- C7 counterexample: the sweep's deadline comparison and the read
path's deadline comparison disagree.  At clock instant 999, a naive
stored deadline reading 1000 has not passed for the sweep (which tags it
UTC and uses `<=`), but has passed for the read path (which tags it
Africa/Cairo, offset 120, and uses `<`), so the claimed agreement of the
two paths fails at this concrete input. -/
theorem claim_C7_counterexample :
    sweep_deadline_passed 999 (DBTime.naive 1000) = false ∧
      read_deadline_passed 120 999 (DBTime.naive 1000) = true ∧
      sweep_deadline_passed 999 (DBTime.naive 1000) ≠
        read_deadline_passed 120 999 (DBTime.naive 1000) := by
  refine ⟨by decide, by decide, by decide⟩

/-- C7 amended: the two deadline comparisons are not made in a single
reference timezone — the sweep treats naive deadlines as UTC and compares
with `<=` while the read path treats them as Africa/Cairo wall time
(offset `off > 0`) and compares with `<`.  They agree exactly when the
deadline is aware and differs from `now`, or naive and outside the
window `now < w < now + off`. -/
theorem claim_C7 (off now : Int) (d : DBTime) (hoff : 0 < off) :
    (sweep_deadline_passed now d = read_deadline_passed off now d) ↔
      (match d with
       | DBTime.aware t => t ≠ now
       | DBTime.naive w => ¬(now < w ∧ w < now + off)) := by
  cases d with
  | aware t =>
    simp only [sweep_deadline_passed, read_deadline_passed,
      decide_eq_decide]
    omega
  | naive w =>
    simp only [sweep_deadline_passed, read_deadline_passed,
      decide_eq_decide]
    omega

/-- Witness for the C7 agreement characterization at a concrete input:
an aware deadline one tick before `now` is passed for both paths. -/
theorem claim_C7_witness :
    (sweep_deadline_passed 5 (DBTime.aware 4) =
        read_deadline_passed 120 5 (DBTime.aware 4)) ↔ (4 : Int) ≠ 5 :=
  claim_C7 120 5 (DBTime.aware 4) (by decide)

theorem last_invited_le_total (x y : Option Int) :
    last_invited_le x y = true ∨ last_invited_le y x = true := by
  cases x <;> cases y <;> simp [last_invited_le] <;> omega

theorem last_invited_le_trans {x y z : Option Int}
    (h1 : last_invited_le x y = true) (h2 : last_invited_le y z = true) :
    last_invited_le x z = true := by
  cases x <;> cases y <;> cases z <;> simp_all [last_invited_le] <;> omega

theorem supplier_le_iff (a b : SupplierProfile) :
    supplier_le a b = true ↔
      (a.invitations_sent < b.invitations_sent ∨
        (a.invitations_sent = b.invitations_sent ∧
          last_invited_le a.last_invited_at b.last_invited_at = true)) := by
  unfold supplier_le
  cases h : last_invited_le a.last_invited_at b.last_invited_at <;> simp [h]

instance : IsTotal SupplierProfile SupplierLE := by
  constructor
  intro a b
  unfold SupplierLE
  rw [supplier_le_iff, supplier_le_iff]
  rcases Nat.lt_trichotomy a.invitations_sent b.invitations_sent with h | h | h
  · exact Or.inl (Or.inl h)
  · rcases last_invited_le_total a.last_invited_at b.last_invited_at with
      h2 | h2
    · exact Or.inl (Or.inr ⟨h, h2⟩)
    · exact Or.inr (Or.inr ⟨h.symm, h2⟩)
  · exact Or.inr (Or.inl h)

instance : IsTrans SupplierProfile SupplierLE := by
  constructor
  intro a b c hab hbc
  unfold SupplierLE at hab hbc ⊢
  rw [supplier_le_iff] at hab hbc ⊢
  rcases hab with h1 | ⟨h1, h1l⟩ <;> rcases hbc with h2 | ⟨h2, h2l⟩
  · exact Or.inl (lt_trans h1 h2)
  · exact Or.inl (h2 ▸ h1)
  · exact Or.inl (h1 ▸ h2)
  · exact Or.inr ⟨h1.trans h2, last_invited_le_trans h1l h2l⟩

/-- The three suppliers of the C8 determinism scenario. -/
def c8_A : SupplierProfile :=
  { id := 1, categories := ["X"], invitations_sent := 2,
    last_invited_at := none, total_awarded_value := 0 }

def c8_B : SupplierProfile :=
  { id := 2, categories := ["X"], invitations_sent := 0,
    last_invited_at := none, total_awarded_value := 0 }

def c8_C : SupplierProfile :=
  { id := 3, categories := ["X"], invitations_sent := 1,
    last_invited_at := none, total_awarded_value := 0 }

def c8_state : State :=
  { rfqs := [], quotations := [], invitations := [],
    suppliers := [c8_A, c8_B, c8_C], requests := [], departments := [],
    next_quotation_id := 0, next_rfq_id := 0, next_request_id := 0 }

/-- C8.  `select_suppliers_for_rfq(category)` returns exactly the
suppliers whose category membership matches (a permutation of the
filtered table), sorted by the fairness order — ascending
`invitations_sent`, then ascending `last_invited_at` with NULL (never
invited) first, per SQLite's ASC NULL ordering — and, being a function
of the store, is deterministic.  In particular, for suppliers
A(invitations_sent=2), B(0), C(1) in category "X" it returns
[B, C, A]. -/
theorem claim_C8 :
    (∀ (s : State) (category : String),
      (select_suppliers_for_rfq category none s).Perm
        (s.suppliers.filter (fun sp => sp.categories.contains category)) ∧
      (select_suppliers_for_rfq category none s).Sorted SupplierLE) ∧
    select_suppliers_for_rfq "X" none c8_state = [c8_B, c8_C, c8_A] := by
  refine ⟨fun s category => ⟨?_, ?_⟩, ?_⟩
  · exact List.perm_insertionSort _ _
  · exact List.sorted_insertionSort _ _
  · decide

/-! ### Lemmas for the response-locking claims -/

theorem submit_ok_rfqs {now : Int} {a : Actor} {pid rid : Nat} {amt : Int}
    {s : State} {r : State × Nat}
    (h : submit_quotation now a pid rid amt s = Except.ok r) :
    r.1.rfqs = (sweep now s).rfqs.map (fun r2 =>
      if r2.id == rid then
        (if r2.response_locked then r2
         else { r2 with response_locked := true })
      else r2) := by
  unfold submit_quotation at h
  split at h
  · cases h
  · simp only at h
    split at h
    · cases h
    · split at h
      · cases h
      · split at h
        · cases h
        · split at h
          · cases h
          · simp only [Except.ok.injEq] at h
            subst h
            rfl

theorem read_passed_false_of_now_lt {off now : Int} {d : DBTime}
    (h : now < read_instant off d) :
    read_deadline_passed off now d = false := by
  cases d <;> simp [read_deadline_passed, read_instant] at h ⊢ <;> omega

theorem read_passed_true_of_lt_now {off now : Int} {d : DBTime}
    (h : read_instant off d < now) :
    read_deadline_passed off now d = true := by
  cases d <;> simp [read_deadline_passed, read_instant] at h ⊢ <;> omega

theorem not_sweep_passed_of_now_lt {off now : Int} (hoff : 0 < off)
    {d : DBTime} (h : now < read_instant off d) :
    sweep_deadline_passed now d = false := by
  cases d <;> simp [sweep_deadline_passed, read_instant] at h ⊢ <;> omega

theorem close_one_eq_self_of_now_lt {off now : Int} (hoff : 0 < off)
    {r : RFQ} {d : DBTime} (hd : r.deadline = some d)
    (h : now < read_instant off d) : close_one now r = r := by
  unfold close_one
  rw [if_neg ?_]
  simp [rfq_expires, hd, not_sweep_passed_of_now_lt hoff h]

/-- The staff roles admitted to `read_rfq` by `require_roles`. -/
def read_roles (a : Actor) : Prop :=
  a.role = Role.superadmin ∨ a.role = Role.procurement ∨
    a.role = Role.procurement_officer ∨ a.role = Role.requester ∨
    a.role = Role.finance

/-- Before the deadline, a locked RFQ reads back with an empty quotation
list, a `response_locked` field shown as `false`, and the lock still set
in the store. -/
theorem read_rfq_locked_before_deadline {off now : Int} (hoff : 0 < off)
    {a : Actor} (hrole : read_roles a) {s : State} {rid : Nat} {rfq : RFQ}
    {d : DBTime} (hfind : findRfq s rid = some rfq)
    (hlock : rfq.response_locked = true) (hd : rfq.deadline = some d)
    (hnow : now < read_instant off d) :
    read_rfq now off a rid s = Except.ok (sweep now s,
      { id := rfq.id, title := rfq.title, category := rfq.category,
        budget := rfq.budget, deadline := rfq.deadline, status := rfq.status,
        response_locked := false, quotations := [] }) := by
  unfold read_roles at hrole
  have hclose : close_one now rfq = rfq :=
    close_one_eq_self_of_now_lt hoff hd hnow
  have hfind2 : findRfq (sweep now s) rid = some rfq := by
    rw [findRfq_sweep, hfind, Option.map_some', hclose]
  have hdp : read_deadline_passed off now d = false :=
    read_passed_false_of_now_lt hnow
  unfold read_rfq
  rw [if_neg (not_not_intro hrole)]
  simp only [hfind2, hd, hdp, hlock, Bool.and_false, Bool.false_and,
    Bool.and_true, Bool.true_and, Bool.not_false, if_false, if_true,
    Bool.false_eq_true, ite_false, ite_true]

/-- After the deadline, a read of a locked RFQ clears the lock and
returns the full quotation list. -/
theorem read_rfq_locked_after_deadline {off now : Int} {a : Actor}
    (hrole : read_roles a) {s : State} {rid : Nat} {rfq : RFQ}
    {d : DBTime} (hfind : findRfq s rid = some rfq)
    (hlock : rfq.response_locked = true) (hd : rfq.deadline = some d)
    (hnow : read_instant off d < now) :
    ∃ (s2 : State) (p : RFQPayload),
      read_rfq now off a rid s = Except.ok (s2, p) ∧
      p.quotations = s.quotations.filter (fun q => q.rfq_id == rid) ∧
      p.response_locked = false ∧
      ∃ r2, findRfq s2 rid = some r2 ∧ r2.response_locked = false := by
  unfold read_roles at hrole
  have hdp : read_deadline_passed off now d = true :=
    read_passed_true_of_lt_now hnow
  cases hexp : rfq_expires now rfq with
  | true =>
    have hclose : close_one now rfq =
        { rfq with status := RFQStatus.closed, response_locked := false } := by
      unfold close_one
      rw [if_pos hexp]
    have hfind2 : findRfq (sweep now s) rid =
        some { rfq with status := RFQStatus.closed,
                        response_locked := false } := by
      rw [findRfq_sweep, hfind, Option.map_some', hclose]
    have hread : read_rfq now off a rid s = Except.ok (sweep now s,
        { id := rfq.id, title := rfq.title, category := rfq.category,
          budget := rfq.budget, deadline := rfq.deadline,
          status := RFQStatus.closed, response_locked := false,
          quotations := s.quotations.filter (fun q => q.rfq_id == rid) }) := by
      unfold read_rfq
      rw [if_neg (not_not_intro hrole)]
      simp only [hfind2, hd, hdp, Bool.and_false, Bool.false_and,
        Bool.and_true, Bool.true_and, if_false, if_true,
        Bool.false_eq_true, ite_false, ite_true]
      rfl
    exact ⟨_, _, hread, rfl, rfl, _, hfind2, rfl⟩
  | false =>
    have hclose : close_one now rfq = rfq := by
      unfold close_one
      rw [if_neg (by simp [hexp])]
    have hfind2 : findRfq (sweep now s) rid = some rfq := by
      rw [findRfq_sweep, hfind, Option.map_some', hclose]
    have hread : read_rfq now off a rid s = Except.ok
        ({ sweep now s with
            rfqs := (sweep now s).rfqs.map (fun r2 =>
              if r2.id == rid then { r2 with response_locked := false }
              else r2) },
          { id := rfq.id, title := rfq.title, category := rfq.category,
            budget := rfq.budget, deadline := rfq.deadline,
            status := rfq.status, response_locked := false,
            quotations := s.quotations.filter (fun q => q.rfq_id == rid) }) := by
      unfold read_rfq
      rw [if_neg (not_not_intro hrole)]
      simp only [hfind2, hd, hdp, hlock, Bool.and_true, Bool.true_and,
        Bool.not_true, Bool.and_false, if_true, Bool.true_eq_false,
        Bool.false_eq_true, ite_true, ite_false]
      rfl
    have hid : (rfq.id == rid) = true := by
      have hfind3 : s.rfqs.find? (fun r2 => r2.id == rid) = some rfq := hfind
      simpa using List.find?_some hfind3
    refine ⟨_, _, hread, rfl, rfl,
      ⟨{ rfq with response_locked := false }, ?_, rfl⟩⟩
    unfold findRfq
    dsimp only
    rw [find?_map_of_pred
      (fun r2 => if r2.id == rid then { r2 with response_locked := false }
        else r2)
      (fun r2 => r2.id == rid) ?_ (sweep now s).rfqs]
    · rw [show (sweep now s).rfqs.find? (fun r2 => r2.id == rid) =
          some rfq from hfind2]
      simp only [Option.map_some']
      simp [hid]
    · intro x
      by_cases hx : (x.id == rid) = true <;> simp [hx]

/-- Before the deadline, an unlocked RFQ reads back with its full
quotation list. -/
theorem read_rfq_unlocked_before_deadline {off now : Int} (hoff : 0 < off)
    {a : Actor} (hrole : read_roles a) {s : State} {rid : Nat} {rfq : RFQ}
    {d : DBTime} (hfind : findRfq s rid = some rfq)
    (hlock : rfq.response_locked = false) (hd : rfq.deadline = some d)
    (hnow : now < read_instant off d) :
    read_rfq now off a rid s = Except.ok (sweep now s,
      { id := rfq.id, title := rfq.title, category := rfq.category,
        budget := rfq.budget, deadline := rfq.deadline, status := rfq.status,
        response_locked := false,
        quotations := s.quotations.filter (fun q => q.rfq_id == rid) }) := by
  unfold read_roles at hrole
  have hclose : close_one now rfq = rfq :=
    close_one_eq_self_of_now_lt hoff hd hnow
  have hfind2 : findRfq (sweep now s) rid = some rfq := by
    rw [findRfq_sweep, hfind, Option.map_some', hclose]
  have hdp : read_deadline_passed off now d = false :=
    read_passed_false_of_now_lt hnow
  unfold read_rfq
  rw [if_neg (not_not_intro hrole)]
  simp only [hfind2, hd, hdp, hlock, Bool.and_false, Bool.false_and,
    Bool.and_true, Bool.true_and, Bool.not_false, if_false, if_true,
    Bool.false_eq_true, ite_false, ite_true]
  rfl

/-- C3.  (1) A successful quotation submission to an open, unlocked RFQ
with no prior quotations leaves the RFQ `response_locked`.  (2) While an
RFQ is locked and its deadline instant (read-path normalization, Cairo
offset `off > 0`) is still ahead of `now`, a staff read returns an empty
quotation list — for any stored quotations whatsoever — and the lock
stays set in the store.  (3) Once the deadline instant is strictly past,
a staff read clears the lock and returns the full quotation list of the
RFQ. -/
theorem claim_C3 :
    (∀ (now : Int) (a : Actor) (pid rid : Nat) (amt : Int) (s : State)
        (rfq : RFQ) (r : State × Nat),
      findRfq s rid = some rfq → rfq.status = RFQStatus.opened →
      rfq.response_locked = false →
      (∀ q ∈ s.quotations, q.rfq_id ≠ rid) →
      submit_quotation now a pid rid amt s = Except.ok r →
      ∃ r2, findRfq r.1 rid = some r2 ∧ r2.response_locked = true) ∧
    (∀ (off now : Int) (a : Actor) (s : State) (rid : Nat) (rfq : RFQ)
        (d : DBTime), 0 < off → read_roles a →
      findRfq s rid = some rfq → rfq.response_locked = true →
      rfq.deadline = some d → now < read_instant off d →
      ∃ s2 p, read_rfq now off a rid s = Except.ok (s2, p) ∧
        p.quotations = [] ∧
        ∃ r2, findRfq s2 rid = some r2 ∧ r2.response_locked = true) ∧
    (∀ (off now : Int) (a : Actor) (s : State) (rid : Nat) (rfq : RFQ)
        (d : DBTime), read_roles a →
      findRfq s rid = some rfq → rfq.response_locked = true →
      rfq.deadline = some d → read_instant off d < now →
      ∃ s2 p, read_rfq now off a rid s = Except.ok (s2, p) ∧
        p.quotations = s.quotations.filter (fun q => q.rfq_id == rid) ∧
        p.response_locked = false ∧
        ∃ r2, findRfq s2 rid = some r2 ∧ r2.response_locked = false) := by
  refine ⟨?_, ?_, ?_⟩
  · intro now a pid rid amt s rfq r hfind hst hlock hfirst hok
    have hrfqs := submit_ok_rfqs hok
    have hid : (rfq.id == rid) = true := by
      have hfind3 : s.rfqs.find? (fun r2 => r2.id == rid) = some rfq := hfind
      simpa using List.find?_some hfind3
    have hfind2 : findRfq (sweep now s) rid = (findRfq s rid).map
        (close_one now) := findRfq_sweep now s rid
    rw [hfind, Option.map_some'] at hfind2
    have hfindr : findRfq r.1 rid = some
        (let x := close_one now rfq
         if x.id == rid then
           (if x.response_locked then x
            else { x with response_locked := true })
         else x) := by
      unfold findRfq
      rw [hrfqs]
      rw [find?_map_of_pred _ (fun r2 => r2.id == rid) ?_ (sweep now s).rfqs]
      · rw [show (sweep now s).rfqs.find? (fun r2 => r2.id == rid) =
            some (close_one now rfq) from hfind2]
        rfl
      · intro x
        by_cases hx : (x.id == rid) = true <;>
          by_cases hl : x.response_locked = true <;> simp [hx, hl]
    have hidc : ((close_one now rfq).id == rid) = true := by
      rw [close_one_id]
      exact hid
    refine ⟨_, hfindr, ?_⟩
    simp only [hidc, if_true]
    by_cases hl : (close_one now rfq).response_locked = true <;> simp [hl]
  · intro off now a s rid rfq d hoff hrole hfind hlock hd hnow
    have hclose : close_one now rfq = rfq :=
      close_one_eq_self_of_now_lt hoff hd hnow
    have hfind2 : findRfq (sweep now s) rid = some rfq := by
      rw [findRfq_sweep, hfind, Option.map_some', hclose]
    exact ⟨_, _,
      read_rfq_locked_before_deadline hoff hrole hfind hlock hd hnow,
      rfl, rfq, hfind2, hlock⟩
  · intro off now a s rid rfq d hrole hfind hlock hd hnow
    obtain ⟨s2, p, h1, h2, h3, h4⟩ :=
      read_rfq_locked_after_deadline hrole hfind hlock hd hnow
    exact ⟨s2, p, h1, h2, h3, h4⟩

/-- An open RFQ awaiting its first quotation, for the C3 witness. -/
def c3_rfq : RFQ :=
  { id := 0, title := "T", category := "X", budget := 5,
    deadline := some (DBTime.aware 100), status := RFQStatus.opened,
    response_locked := false, budget_override_justification := none }

def c3_state : State :=
  { rfqs := [c3_rfq], quotations := [],
    invitations := [{ rfq_id := 0, supplier_id := 1, responded_at := none,
                      status := "invited" }],
    suppliers := [], requests := [], departments := [],
    next_quotation_id := 0, next_rfq_id := 1, next_request_id := 0 }

def c3_q0 : Quotation :=
  { id := 0, rfq_id := 0, supplier_id := 1, amount := 50,
    status := QuotationStatus.submitted, approved_at := none,
    approved_by_id := none, budget_override_justification := none,
    finance_approval_requested_at := none,
    finance_approval_requested_by_id := none }

/-- The store after supplier 1 submits the first quotation at instant 10:
the RFQ is now response-locked. -/
def c3_locked_state : State :=
  { rfqs := [{ c3_rfq with response_locked := true }],
    quotations := [c3_q0],
    invitations := [{ rfq_id := 0, supplier_id := 1,
                      responded_at := some 10, status := "responded" }],
    suppliers := [], requests := [], departments := [],
    next_quotation_id := 1, next_rfq_id := 1, next_request_id := 0 }

/-- Witness for C3: the first submission at instant 10 locks RFQ 0; a
procurement read at instant 10 (before the deadline instant 100) sees no
quotations while the lock persists; a read at instant 200 unlocks and
sees the stored quotation. -/
theorem claim_C3_witness :
    (∃ r2, findRfq c3_locked_state 0 = some r2 ∧
      r2.response_locked = true) ∧
    (∃ s2 p, read_rfq 10 120 { id := 7, role := Role.procurement } 0
        c3_locked_state = Except.ok (s2, p) ∧ p.quotations = [] ∧
      ∃ r2, findRfq s2 0 = some r2 ∧ r2.response_locked = true) ∧
    (∃ s2 p, read_rfq 200 120 { id := 7, role := Role.procurement } 0
        c3_locked_state = Except.ok (s2, p) ∧
      p.quotations = c3_locked_state.quotations.filter
        (fun q => q.rfq_id == 0) ∧
      p.response_locked = false ∧
      ∃ r2, findRfq s2 0 = some r2 ∧ r2.response_locked = false) :=
  ⟨claim_C3.1 10 { id := 21, role := Role.supplier } 1 0 50 c3_state c3_rfq
      (c3_locked_state, 0) (by decide) (by decide) (by decide)
      (by intro q hq; cases hq) rfl,
   claim_C3.2.1 120 10 { id := 7, role := Role.procurement }
      c3_locked_state 0 { c3_rfq with response_locked := true }
      (DBTime.aware 100) (by decide)
      (Or.inr (Or.inl rfl)) (by decide) (by decide) (by decide) (by decide),
   claim_C3.2.2 120 200 { id := 7, role := Role.procurement }
      c3_locked_state 0 { c3_rfq with response_locked := true }
      (DBTime.aware 100)
      (Or.inr (Or.inl rfl)) (by decide) (by decide) (by decide) (by decide)⟩

/-- The observational scrub the C10 claim compares against: the same
store with RFQ `rid` unlocked and all its quotations absent. -/
def scrub (s : State) (rid : Nat) : State :=
  { s with
    rfqs := s.rfqs.map (fun r =>
      if r.id == rid then { r with response_locked := false } else r),
    quotations := s.quotations.filter (fun q => ¬ q.rfq_id == rid) }

/-- C10.  While an RFQ is response-locked and its deadline instant is
still ahead, the single-RFQ read returns a payload whose
`response_locked` field is `false` and whose quotation list is empty —
the very payload the same read returns for the scrubbed store in which
that RFQ is unlocked and holds no quotations, so a caller cannot tell an
embargoed RFQ from an unlocked one with no submissions. -/
theorem claim_C10 (off now : Int) (hoff : 0 < off) (a : Actor)
    (hrole : read_roles a) (s : State) (rid : Nat) (rfq : RFQ) (d : DBTime)
    (hfind : findRfq s rid = some rfq) (hlock : rfq.response_locked = true)
    (hd : rfq.deadline = some d) (hnow : now < read_instant off d) :
    ∃ p, read_rfq now off a rid s = Except.ok (sweep now s, p) ∧
      p.response_locked = false ∧ p.quotations = [] ∧
      read_rfq now off a rid (scrub s rid) =
        Except.ok (sweep now (scrub s rid), p) := by
  have hfindscrub : findRfq (scrub s rid) rid =
      some { rfq with response_locked := false } := by
    unfold findRfq scrub
    dsimp only
    rw [find?_map_of_pred
      (fun r => if r.id == rid then { r with response_locked := false }
        else r)
      (fun r2 => r2.id == rid) ?_ s.rfqs]
    · rw [show s.rfqs.find? (fun r2 => r2.id == rid) = some rfq from hfind]
      have hid : (rfq.id == rid) = true := by
        have hfind3 : s.rfqs.find? (fun r2 => r2.id == rid) = some rfq :=
          hfind
        simpa using List.find?_some hfind3
      have hideq : rfq.id = rid := eq_of_beq hid
      simp [hideq]
    · intro x
      by_cases hx : (x.id == rid) = true <;> simp [hx]
  have hscrubbed := read_rfq_unlocked_before_deadline hoff hrole hfindscrub
    rfl hd hnow
  have hfilter : (scrub s rid).quotations.filter
      (fun q => q.rfq_id == rid) = [] := by
    unfold scrub
    dsimp only
    rw [List.filter_filter]
    refine List.filter_eq_nil_iff.2 ?_
    intro q _
    by_cases hq : (q.rfq_id == rid) = true <;> simp [hq]
  rw [hfilter] at hscrubbed
  exact ⟨_, read_rfq_locked_before_deadline hoff hrole hfind hlock hd hnow,
    rfl, rfl, hscrubbed⟩

/-- Witness for C10: the locked store of the C3 scenario at instant 10
reads back exactly like its scrubbed counterpart. -/
theorem claim_C10_witness :
    ∃ p, read_rfq 10 120 { id := 7, role := Role.procurement } 0
        c3_locked_state = Except.ok (sweep 10 c3_locked_state, p) ∧
      p.response_locked = false ∧ p.quotations = [] ∧
      read_rfq 10 120 { id := 7, role := Role.procurement } 0
          (scrub c3_locked_state 0) =
        Except.ok (sweep 10 (scrub c3_locked_state 0), p) :=
  claim_C10 120 10 (by decide) { id := 7, role := Role.procurement }
    (Or.inr (Or.inl rfl)) c3_locked_state 0
    { c3_rfq with response_locked := true } (DBTime.aware 100)
    (by decide) (by decide) (by decide) (by decide)

/-- A store with a single department (id 1), for the C9 theorems. -/
def c9_state : State :=
  { rfqs := [], quotations := [], invitations := [], suppliers := [],
    requests := [], departments := [1], next_quotation_id := 0,
    next_rfq_id := 0, next_request_id := 0 }

/-- C9 counterexample: submitting a purchase request against a
non-existent department (id 5 in a store whose only department is id 1)
fails with the error classified `NotFoundError` (HTTP 404 "Department
not found" in `requests.py` line 229), not `ValidationError` as the
claim states. -/
theorem claim_C9_counterexample :
    create_request { id := 7, role := Role.requester } 5 "Chairs"
        "Furniture" c9_state =
      Except.error CreateRequestError.department_not_found ∧
    CreateRequestError.kind CreateRequestError.department_not_found =
      ErrKind.not_found ∧
    CreateRequestError.kind CreateRequestError.department_not_found ≠
      ErrKind.validation :=
  ⟨rfl, rfl, by decide⟩

/-- C9 amended.  `create_request` creates the request in `pending_hod`
with the proposed budget zeroed (amount 0, currency "ZMW") and no
finance budget; when the referenced department does not exist it fails
with NotFoundError — not ValidationError — and, the transaction rolling
back, creates no request. -/
theorem claim_C9 (a : Actor) (dept : Nat) (t c : String) (s : State)
    (hrole : a.role = Role.requester ∨ a.role = Role.superadmin) :
    (dept ∉ s.departments →
      create_request a dept t c s =
        Except.error CreateRequestError.department_not_found ∧
      CreateRequestError.kind CreateRequestError.department_not_found =
        ErrKind.not_found) ∧
    (dept ∈ s.departments →
      ∃ s2 rid, create_request a dept t c s = Except.ok (s2, rid) ∧
        ∃ req : PurchaseRequest, s2.requests = s.requests ++ [req] ∧
          req.status = RequestStatus.pending_hod ∧
          req.proposed_budget_amount = some 0 ∧
          req.proposed_budget_currency = some "ZMW" ∧
          req.finance_budget_amount = none ∧
          req.department_id = some dept) := by
  constructor
  · intro hmem
    have hcont : s.departments.contains dept = false := by
      simpa using hmem
    constructor
    · unfold create_request
      rw [if_neg (not_not_intro hrole), if_pos (by simpa using hmem)]
    · rfl
  · intro hmem
    have hok : create_request a dept t c s = Except.ok
        ({ s with
            requests := s.requests ++
              [{ id := s.next_request_id, title := t, category := c,
                 department_id := some dept,
                 status := RequestStatus.pending_hod, rfq_id := none,
                 proposed_budget_amount := some 0,
                 proposed_budget_currency := some "ZMW",
                 finance_budget_amount := none,
                 finance_budget_currency := none,
                 rfq_invited_at := none }],
            next_request_id := s.next_request_id + 1 },
          s.next_request_id) := by
      unfold create_request
      rw [if_neg (not_not_intro hrole), if_neg (by simpa using hmem)]
    exact ⟨_, _, hok, _, rfl, rfl, rfl, rfl, rfl, rfl⟩

/-- Witness for C9 at concrete inputs: department 5 is missing (error,
classified not-found), department 1 exists (request created in
`pending_hod` with zeroed budget). -/
theorem claim_C9_witness :
    ((5 : Nat) ∉ c9_state.departments →
      create_request { id := 7, role := Role.requester } 5 "Chairs"
          "Furniture" c9_state =
        Except.error CreateRequestError.department_not_found ∧
      CreateRequestError.kind CreateRequestError.department_not_found =
        ErrKind.not_found) ∧
    ((5 : Nat) ∉ c9_state.departments) ∧
    ((1 : Nat) ∈ c9_state.departments →
      ∃ s2 rid, create_request { id := 7, role := Role.requester } 1
          "Chairs" "Furniture" c9_state = Except.ok (s2, rid) ∧
        ∃ req : PurchaseRequest, s2.requests = c9_state.requests ++ [req] ∧
          req.status = RequestStatus.pending_hod ∧
          req.proposed_budget_amount = some 0 ∧
          req.proposed_budget_currency = some "ZMW" ∧
          req.finance_budget_amount = none ∧
          req.department_id = some 1) ∧
    ((1 : Nat) ∈ c9_state.departments) :=
  ⟨(claim_C9 { id := 7, role := Role.requester } 5 "Chairs" "Furniture"
      c9_state (Or.inl rfl)).1, by decide,
   (claim_C9 { id := 7, role := Role.requester } 1 "Chairs" "Furniture"
      c9_state (Or.inl rfl)).2, by decide⟩

/-! ### The award cascade (C2) -/

theorem award_row_rfq_id (now : Int) (a : Actor) (rid qid : Nat)
    (ov : Option String) (q : Quotation) :
    (award_quotation_row now a rid qid ov q).rfq_id = q.rfq_id := by
  unfold award_quotation_row
  split
  · rfl
  · split
    · split <;> rfl
    · rfl

/-- A successful `approve_quotation` call on a quotation that is not
already approved produces exactly the award-cascade state. -/
theorem approve_ok_shape {now : Int} {a : Actor} {rid qid : Nat}
    {ov : Option String} {s s2 : State} {q : Quotation}
    (hfind : findQuotation s rid qid = some q)
    (hnotapp : ¬ q.status = QuotationStatus.approved)
    (hok : approve_quotation now a rid qid ov s = Except.ok s2) :
    s2 = award_state now a rid qid ov q (sweep now s) := by
  have hfind2 : findQuotation (sweep now s) rid qid = some q := hfind
  simp only [approve_quotation] at hok
  split at hok
  · cases hok
  · rw [hfind2] at hok
    simp only at hok
    rw [if_neg hnotapp] at hok
    split at hok
    · cases hok
    · split at hok
      · cases hok
      · split at hok
        · cases hok
        · split at hok
          · cases hok
          · simp only [Except.ok.injEq] at hok
            exact hok.symm

/-- A successful approval under passing gates: the call returns exactly
the award-cascade state. -/
theorem approve_quotation_ok (now : Int) (a : Actor) (rid qid : Nat)
    (ov : Option String) (s : State) (q : Quotation) (rfq : RFQ)
    (hrole : a.role = Role.finance ∨ a.role = Role.superadmin ∨
      a.role = Role.procurement)
    (hfind : findQuotation s rid qid = some q)
    (hnotapp : ¬ q.status = QuotationStatus.approved)
    (hgate1 : q.status = QuotationStatus.pending_finance_approval →
      elevated a.role = true)
    (hgate2 : ¬ q.status = QuotationStatus.pending_finance_approval →
      ov.isSome → elevated a.role = true)
    (hwin : ∀ q2 ∈ s.quotations, q2.rfq_id = rid →
      q2.status = QuotationStatus.approved → q2.id = qid)
    (hrfq : findRfq s rid = some rfq) :
    approve_quotation now a rid qid ov s =
      Except.ok (award_state now a rid qid ov q (sweep now s)) := by
  have hfind2 : findQuotation (sweep now s) rid qid = some q := hfind
  have hrfq2 : findRfq (sweep now s) rid = some (close_one now rfq) := by
    rw [findRfq_sweep, hrfq, Option.map_some']
  have hany : ((sweep now s).quotations.any (fun q2 =>
      q2.rfq_id == rid && q2.status == QuotationStatus.approved &&
        ¬ q2.id == qid)) = false := by
    rw [List.any_eq_false]
    intro q2 hq2
    have hq2m : q2 ∈ s.quotations := hq2
    by_cases h1 : q2.rfq_id = rid
    · by_cases h2 : q2.status = QuotationStatus.approved
      · have := hwin q2 hq2m h1 h2
        simp [this]
      · simp [h2]
    · simp [h1]
  have hg1 : ¬ (q.status = QuotationStatus.pending_finance_approval ∧
      ¬ elevated a.role = true) :=
    fun hcon => absurd (hgate1 hcon.1) hcon.2
  have hg2 : ¬ (¬ q.status = QuotationStatus.pending_finance_approval ∧
      ov.isSome = true ∧ ¬ elevated a.role = true) :=
    fun hcon => absurd (hgate2 hcon.1 hcon.2.1) hcon.2.2
  have hg3 : ¬ (((sweep now s).quotations.any (fun q2 =>
      q2.rfq_id == rid && q2.status == QuotationStatus.approved &&
        ¬ q2.id == qid)) = true) := by
    rw [hany]
    simp
  simp only [approve_quotation]
  rw [if_neg (not_not_intro hrole), hfind2]
  simp only
  rw [if_neg hnotapp]
  rw [if_neg hg1, if_neg hg2, if_neg hg3, hrfq2]

/-- In the award-cascade state, the target key is approved with the
approval instant and approver recorded. -/
theorem award_state_target (now : Int) (a : Actor) (rid qid : Nat)
    (ov : Option String) (q : Quotation) (s : State) :
    ∀ x ∈ (award_state now a rid qid ov q s).quotations, x.id = qid →
      x.rfq_id = rid → x.status = QuotationStatus.approved ∧
      x.approved_at = some now ∧ x.approved_by_id = some a.id := by
  intro x hx hxid hxrfq
  obtain ⟨y, hy, rfl⟩ := List.mem_map.1 hx
  have hyid : y.id = qid := by rw [← award_row_id now a rid qid ov y, hxid]
  have hyrfq : y.rfq_id = rid := by
    rw [← award_row_rfq_id now a rid qid ov y, hxrfq]
  have hcond : (y.id == qid && y.rfq_id == rid) = true := by
    simp [hyid, hyrfq]
  unfold award_quotation_row
  rw [if_pos hcond]
  exact ⟨rfl, rfl, rfl⟩

/-- C2.  For a quotation Q (found on RFQ R, not already decided
`approved`), approved by an allowed actor passing the role gates, with
no other approved quotation on R and R present in the store, the approve
call succeeds and produces a state in which: Q is `approved` with the
approval instant and approver recorded; every other quotation of R is
`rejected` — already-rejected rows kept untouched, the rest with their
approval metadata cleared; the invitation of Q's supplier on R is
`awarded` and every other invitation of R is `not_selected`; R is
`awarded`; Q's amount is added to Q's supplier's `total_awarded_value`;
and the first purchase request carrying R, if any, is `completed`. -/
theorem claim_C2 (now : Int) (a : Actor) (rid qid : Nat)
    (ov : Option String) (s : State) (q : Quotation) (rfq : RFQ)
    (hrole : a.role = Role.finance ∨ a.role = Role.superadmin ∨
      a.role = Role.procurement)
    (hfind : findQuotation s rid qid = some q)
    (hnotapp : ¬ q.status = QuotationStatus.approved)
    (hgate1 : q.status = QuotationStatus.pending_finance_approval →
      elevated a.role = true)
    (hgate2 : ¬ q.status = QuotationStatus.pending_finance_approval →
      ov.isSome → elevated a.role = true)
    (hwin : ∀ q2 ∈ s.quotations, q2.rfq_id = rid →
      q2.status = QuotationStatus.approved → q2.id = qid)
    (hrfq : findRfq s rid = some rfq) :
    ∃ s2, approve_quotation now a rid qid ov s = Except.ok s2 ∧
      (∀ x ∈ s2.quotations, x.id = qid → x.rfq_id = rid →
        x.status = QuotationStatus.approved ∧ x.approved_at = some now ∧
        x.approved_by_id = some a.id) ∧
      (∀ y ∈ s.quotations, y.rfq_id = rid → ¬ y.id = qid →
        (y.status = QuotationStatus.rejected → y ∈ s2.quotations) ∧
        (¬ y.status = QuotationStatus.rejected →
          { y with status := QuotationStatus.rejected, approved_at := none,
                   approved_by_id := none } ∈ s2.quotations)) ∧
      (∀ inv ∈ s2.invitations, inv.rfq_id = rid →
        (inv.supplier_id = q.supplier_id → inv.status = "awarded") ∧
        (¬ inv.supplier_id = q.supplier_id →
          inv.status = "not_selected")) ∧
      (∀ r2 ∈ s2.rfqs, r2.id = rid → r2.status = RFQStatus.awarded) ∧
      (∀ sp ∈ s.suppliers, sp.id = q.supplier_id →
        { sp with total_awarded_value :=
            sp.total_awarded_value + q.amount } ∈ s2.suppliers) ∧
      (∀ req : PurchaseRequest,
        s.requests.find? (fun r2 => r2.rfq_id == some rid) = some req →
        { req with status := RequestStatus.completed } ∈ s2.requests) := by
  have hok := approve_quotation_ok now a rid qid ov s q rfq hrole hfind
    hnotapp hgate1 hgate2 hwin hrfq
  refine ⟨_, hok, ?_, ?_, ?_, ?_, ?_, ?_⟩
  · exact award_state_target now a rid qid ov q (sweep now s)
  · intro y hy hyrfq hyid
    have hcond : (y.id == qid && y.rfq_id == rid) = false := by
      simp [hyid]
    have hcond2 : (y.rfq_id == rid) = true := by simp [hyrfq]
    constructor
    · intro hrej
      have : award_quotation_row now a rid qid ov y = y := by
        unfold award_quotation_row
        rw [if_neg (by simp [hcond]), if_pos hcond2,
          if_neg (not_not_intro hrej)]
      exact this ▸ List.mem_map_of_mem _ hy
    · intro hnrej
      have : award_quotation_row now a rid qid ov y =
          { y with status := QuotationStatus.rejected, approved_at := none,
                   approved_by_id := none } := by
        unfold award_quotation_row
        rw [if_neg (by simp [hcond]), if_pos hcond2, if_pos hnrej]
      exact this ▸ List.mem_map_of_mem _ hy
  · intro inv hinv hirfq
    obtain ⟨j, hj, rfl⟩ := List.mem_map.1 hinv
    by_cases h1 : (j.rfq_id == rid) = true
    · by_cases h2 : (j.supplier_id == q.supplier_id) = true
      · refine ⟨fun _ => ?_, fun hne => absurd (eq_of_beq h2) ?_⟩
        · simp [h1, h2]
        · simpa [h1, h2] using hne
      · refine ⟨fun heq => absurd ?_ h2, fun _ => ?_⟩
        · have : j.supplier_id = q.supplier_id := by
            simpa [h1, h2] using heq
          simp [this]
        · simp [h1, h2]
    · exfalso
      apply h1
      have : j.rfq_id = rid := by
        simpa [h1] using hirfq
      simp [this]
  · intro r2 hr2 hrid
    obtain ⟨y, hy, rfl⟩ := List.mem_map.1 hr2
    by_cases h1 : (y.id == rid) = true
    · simp [h1]
    · exfalso
      apply h1
      have : y.id = rid := by
        simpa [h1] using hrid
      simp [this]
  · intro sp hsp hspid
    have : (fun sp2 : SupplierProfile =>
        if sp2.id == q.supplier_id then
          { sp2 with total_awarded_value :=
              sp2.total_awarded_value + q.amount }
        else sp2) sp =
        { sp with total_awarded_value :=
            sp.total_awarded_value + q.amount } := by
      simp only [hspid, beq_self_eq_true, if_true]
    exact this ▸ List.mem_map_of_mem _ hsp
  · intro req hreq
    exact updateFirst_of_find? hreq

/-- Second quotation (supplier 2) for the C2 witness scenario. -/
def c2_q1 : Quotation :=
  { id := 1, rfq_id := 0, supplier_id := 2, amount := 60,
    status := QuotationStatus.submitted, approved_at := none,
    approved_by_id := none, budget_override_justification := none,
    finance_approval_requested_at := none,
    finance_approval_requested_by_id := none }

def c2_supplier : SupplierProfile :=
  { id := 1, categories := ["X"], invitations_sent := 1,
    last_invited_at := some 5, total_awarded_value := 7 }

def c2_req : PurchaseRequest :=
  { id := 0, title := "Chairs", category := "X", department_id := some 1,
    status := RequestStatus.rfq_issued, rfq_id := some 0,
    proposed_budget_amount := some 5,
    proposed_budget_currency := some "ZMW", finance_budget_amount := none,
    finance_budget_currency := none, rfq_invited_at := some 3 }

/-- A locked RFQ 0 with two submitted quotations, two responded
invitations, two suppliers, and an originating request, for the C2
witness. -/
def c2_state : State :=
  { rfqs := [{ c3_rfq with response_locked := true }],
    quotations := [c3_q0, c2_q1],
    invitations := [{ rfq_id := 0, supplier_id := 1,
                      responded_at := some 10, status := "responded" },
                    { rfq_id := 0, supplier_id := 2,
                      responded_at := some 11, status := "responded" }],
    suppliers := [c2_supplier,
                  { id := 2, categories := ["X"], invitations_sent := 1,
                    last_invited_at := some 5, total_awarded_value := 0 }],
    requests := [c2_req], departments := [1],
    next_quotation_id := 2, next_rfq_id := 1, next_request_id := 1 }

/-- Witness for C2: procurement approves quotation 0 (supplier 1, amount
50) on RFQ 0 at instant 50 in the `c2_state` store; all the cascade
postconditions hold there. -/
theorem claim_C2_witness :
    ∃ s2, approve_quotation 50 { id := 9, role := Role.procurement } 0 0
        none c2_state = Except.ok s2 ∧
      (∀ x ∈ s2.quotations, x.id = 0 → x.rfq_id = 0 →
        x.status = QuotationStatus.approved ∧ x.approved_at = some 50 ∧
        x.approved_by_id = some 9) ∧
      (∀ y ∈ c2_state.quotations, y.rfq_id = 0 → ¬ y.id = 0 →
        (y.status = QuotationStatus.rejected → y ∈ s2.quotations) ∧
        (¬ y.status = QuotationStatus.rejected →
          { y with status := QuotationStatus.rejected, approved_at := none,
                   approved_by_id := none } ∈ s2.quotations)) ∧
      (∀ inv ∈ s2.invitations, inv.rfq_id = 0 →
        (inv.supplier_id = c3_q0.supplier_id → inv.status = "awarded") ∧
        (¬ inv.supplier_id = c3_q0.supplier_id →
          inv.status = "not_selected")) ∧
      (∀ r2 ∈ s2.rfqs, r2.id = 0 → r2.status = RFQStatus.awarded) ∧
      (∀ sp ∈ c2_state.suppliers, sp.id = c3_q0.supplier_id →
        { sp with total_awarded_value :=
            sp.total_awarded_value + c3_q0.amount } ∈ s2.suppliers) ∧
      (∀ req : PurchaseRequest,
        c2_state.requests.find? (fun r2 => r2.rfq_id == some 0) =
          some req →
        { req with status := RequestStatus.completed } ∈ s2.requests) :=
  claim_C2 50 { id := 9, role := Role.procurement } 0 0 none c2_state
    c3_q0 { c3_rfq with response_locked := true }
    (Or.inr (Or.inr rfl)) (by decide) (by decide)
    (fun h => absurd h (by decide)) (fun _ h => absurd h (by decide))
    (by decide) (by decide)

/-! ### Re-deciding terminal quotations (C4) -/

/-- An already-approved quotation, for the C4 theorems. -/
def c4_qapp : Quotation :=
  { id := 0, rfq_id := 0, supplier_id := 1, amount := 50,
    status := QuotationStatus.approved, approved_at := some 20,
    approved_by_id := some 9, budget_override_justification := none,
    finance_approval_requested_at := none,
    finance_approval_requested_by_id := none }

/-- An awarded RFQ 0 whose quotation 0 is approved. -/
def c4_state : State :=
  { rfqs := [{ c3_rfq with status := RFQStatus.awarded }],
    quotations := [c4_qapp],
    invitations := [{ rfq_id := 0, supplier_id := 1,
                      responded_at := some 10, status := "awarded" }],
    suppliers := [], requests := [], departments := [],
    next_quotation_id := 1, next_rfq_id := 1, next_request_id := 0 }

/-- C4 counterexample: approving the already-approved quotation 0 of
`c4_state` SUCCEEDS — the route's early return at `rfqs.py` 785-786
answers `{"status": "approved"}` with no error — so re-deciding a
terminal quotation does not fail with ConflictError as claimed. -/
theorem claim_C4_counterexample :
    approve_quotation 30 { id := 9, role := Role.procurement } 0 0 none
        c4_state = Except.ok (sweep 30 c4_state) ∧
    ∀ e : ApproveError,
      approve_quotation 30 { id := 9, role := Role.procurement } 0 0 none
          c4_state ≠ Except.error e := by
  constructor
  · rfl
  · intro e h
    rw [show approve_quotation 30 { id := 9, role := Role.procurement }
        0 0 none c4_state = Except.ok (sweep 30 c4_state) from rfl] at h
    cases h

/-- C4 amended.  Re-deciding terminal quotations never fails with
ConflictError: (1) approving an already-approved quotation returns
success with no quotation change (only the deadline sweep runs);
(2) approving a `rejected` quotation is not blocked — when the role
gates pass and no other quotation of the RFQ is approved, it succeeds
and re-approves it; (3) rejecting a quotation in any state other than
`pending_finance_approval` — including an approved or already-rejected
one — succeeds and sets it `rejected`. -/
theorem claim_C4 :
    (∀ (now : Int) (a : Actor) (rid qid : Nat) (ov : Option String)
        (s : State) (q : Quotation),
      (a.role = Role.finance ∨ a.role = Role.superadmin ∨
        a.role = Role.procurement) →
      findQuotation s rid qid = some q →
      q.status = QuotationStatus.approved →
      approve_quotation now a rid qid ov s = Except.ok (sweep now s)) ∧
    (∀ (now : Int) (a : Actor) (rid qid : Nat) (s : State) (q : Quotation)
        (rfq : RFQ),
      (a.role = Role.finance ∨ a.role = Role.superadmin ∨
        a.role = Role.procurement) →
      findQuotation s rid qid = some q →
      q.status = QuotationStatus.rejected →
      (∀ q2 ∈ s.quotations, q2.rfq_id = rid →
        q2.status = QuotationStatus.approved → q2.id = qid) →
      findRfq s rid = some rfq →
      ∃ s2, approve_quotation now a rid qid none s = Except.ok s2 ∧
        ∀ x ∈ s2.quotations, x.id = qid → x.rfq_id = rid →
          x.status = QuotationStatus.approved) ∧
    (∀ (a : Actor) (rid qid : Nat) (s : State) (q : Quotation),
      (a.role = Role.finance ∨ a.role = Role.superadmin ∨
        a.role = Role.procurement) →
      findQuotation s rid qid = some q →
      ¬ q.status = QuotationStatus.pending_finance_approval →
      ∃ s2, reject_quotation a rid qid s = Except.ok s2 ∧
        ∀ x ∈ s2.quotations, x.id = qid → x.rfq_id = rid →
          x.status = QuotationStatus.rejected) := by
  refine ⟨?_, ?_, ?_⟩
  · intro now a rid qid ov s q hrole hfind happ
    have hfind2 : findQuotation (sweep now s) rid qid = some q := hfind
    simp only [approve_quotation]
    rw [if_neg (not_not_intro hrole), hfind2]
    simp only
    rw [if_pos happ]
  · intro now a rid qid s q rfq hrole hfind hrej hwin hrfq
    have hok := approve_quotation_ok now a rid qid none s q rfq hrole hfind
      (by rw [hrej]; exact fun h => nomatch h)
      (by rw [hrej]; exact fun h => nomatch h)
      (fun _ h => absurd h (by decide)) hwin hrfq
    refine ⟨_, hok, ?_⟩
    intro x hx hxid hxrfq
    exact (award_state_target now a rid qid none q (sweep now s) x hx
      hxid hxrfq).1
  · intro a rid qid s q hrole hfind hnp
    have hok : reject_quotation a rid qid s = Except.ok
        { s with
          quotations := s.quotations.map (reject_quotation_row rid qid) } := by
      unfold reject_quotation
      rw [if_neg (not_not_intro hrole), hfind]
      simp only
      rw [if_neg (fun hcon => absurd hcon.1 hnp)]
    refine ⟨_, hok, ?_⟩
    intro x hx hxid hxrfq
    obtain ⟨y, hy, rfl⟩ := List.mem_map.1 hx
    have hyid : y.id = qid := by rw [← reject_row_id rid qid y, hxid]
    have hyrfq : y.rfq_id = rid := by
      have : (reject_quotation_row rid qid y).rfq_id = y.rfq_id := by
        unfold reject_quotation_row
        split <;> rfl
      rw [← this, hxrfq]
    unfold reject_quotation_row
    rw [if_pos (by simp [hyid, hyrfq])]

/-- A rejected quotation alongside an open RFQ, for the C4 witness. -/
def c4b_state : State :=
  { rfqs := [c3_rfq],
    quotations := [{ c3_q0 with status := QuotationStatus.rejected }],
    invitations := [{ rfq_id := 0, supplier_id := 1,
                      responded_at := some 10, status := "responded" }],
    suppliers := [], requests := [], departments := [],
    next_quotation_id := 1, next_rfq_id := 1, next_request_id := 0 }

/-- Witness for C4 at concrete inputs: re-approving approved quotation 0
of `c4_state` succeeds unchanged; approving the rejected quotation of
`c4b_state` succeeds and re-approves it; rejecting the approved
quotation of `c4_state` succeeds and flips it to rejected. -/
theorem claim_C4_witness :
    (approve_quotation 30 { id := 9, role := Role.finance } 0 0 none
        c4_state = Except.ok (sweep 30 c4_state)) ∧
    (∃ s2, approve_quotation 30 { id := 9, role := Role.procurement } 0 0
        none c4b_state = Except.ok s2 ∧
      ∀ x ∈ s2.quotations, x.id = 0 → x.rfq_id = 0 →
        x.status = QuotationStatus.approved) ∧
    (∃ s2, reject_quotation { id := 9, role := Role.procurement } 0 0
        c4_state = Except.ok s2 ∧
      ∀ x ∈ s2.quotations, x.id = 0 → x.rfq_id = 0 →
        x.status = QuotationStatus.rejected) :=
  ⟨claim_C4.1 30 { id := 9, role := Role.finance } 0 0 none c4_state
      c4_qapp (Or.inl rfl) (by decide) (by decide),
   claim_C4.2.1 30 { id := 9, role := Role.procurement } 0 0 c4b_state
      { c3_q0 with status := QuotationStatus.rejected } c3_rfq
      (Or.inr (Or.inr rfl)) (by decide) (by decide) (by decide) (by decide),
   claim_C4.2.2 { id := 9, role := Role.procurement } 0 0 c4_state
      c4_qapp (Or.inr (Or.inr rfl)) (by decide) (by decide)⟩

/-! ### Invitation creation and skipping (C5) -/

/-- Number of invitation rows held by supplier `sid` on RFQ `rid`. -/
def invitation_count (s : State) (rid sid : Nat) : Nat :=
  s.invitations.countP (fun inv => inv.rfq_id == rid &&
    inv.supplier_id == sid)

/-- `create_invitations` adds one invitation per supplier passed —
performing no already-invited check — and returns the number passed. -/
theorem create_invitations_count (now : Int) (rid : Nat) (ids : List Nat)
    (s : State) (sid : Nat) :
    invitation_count (create_invitations now rid ids s).1 rid sid =
      invitation_count s rid sid + ids.count sid ∧
    (create_invitations now rid ids s).2 = ids.length := by
  constructor
  · unfold create_invitations invitation_count
    induction ids generalizing s with
    | nil => simp
    | cons x xs ih =>
      rw [List.foldl_cons]
      rw [ih]
      simp only [List.countP_append, List.count_cons]
      by_cases hx : x = sid
      · simp [hx, List.countP_cons]
        omega
      · have hsx : (sid == x) = false := by simp [Ne.symm hx]
        simp [List.countP_cons, hx, hsx]
  · rfl

/-- A store whose supplier 1 is already invited to RFQ 0, for the C5
counterexample. -/
def c5_state : State :=
  { rfqs := [c3_rfq],
    invitations := [{ rfq_id := 0, supplier_id := 1,
                      responded_at := none, status := "invited" }],
    quotations := [],
    suppliers := [{ id := 1, categories := ["X"], invitations_sent := 1,
                    last_invited_at := some 2, total_awarded_value := 0 }],
    requests := [], departments := [],
    next_quotation_id := 0, next_rfq_id := 1, next_request_id := 0 }

/-- C5 counterexample: `create_invitations` itself does NOT skip a
supplier already invited to the RFQ — invoked with already-invited
supplier 1, it creates a second invitation for the pair (RFQ 0,
supplier 1) and counts it as created.  The skipping the claim attributes
to `create_invitations` in fact lives in the `invite_suppliers` route
(`requests.py` 1133-1134). -/
theorem claim_C5_counterexample :
    invitation_count (create_invitations 5 0 [1] c5_state).1 0 1 = 2 ∧
      (create_invitations 5 0 [1] c5_state).2 = 1 := by
  constructor <;> decide

/-- C5 amended.  For the `invite_suppliers` route (request in an
invitable status, non-empty supplier list, future deadline, request
already carrying an RFQ present in the store): (1) an unknown named
supplier id fails with the error classified NotFoundError; (2) when all
named suppliers exist but each is already invited to the RFQ, it fails
with the error classified ConflictError; (3) otherwise it succeeds,
creating exactly one invitation per named not-yet-invited supplier —
skipping the already-invited ones (this filtering happens in the route,
`requests.py` 1133-1134, not in `create_invitations`) — and returns
their number.  `create_invitations` itself invites every supplier it is
given (see the counterexample). -/
theorem claim_C5 (now : Int) (a : Actor) (reqid : Nat)
    (supplier_ids : List Nat) (d : DBTime) (s : State)
    (req : PurchaseRequest) (rid : Nat) (rfq : RFQ)
    (new_list : List SupplierProfile)
    (hrole : a.role = Role.procurement ∨ a.role = Role.superadmin)
    (hreq : s.requests.find? (fun r2 => r2.id == reqid) = some req)
    (hst : req.status = RequestStatus.finance_approved ∨
      req.status = RequestStatus.rfq_issued)
    (hne : supplier_ids ≠ [])
    (hfut : now < invite_deadline_instant d)
    (hrid : req.rfq_id = some rid)
    (hrfq : findRfq s rid = some rfq)
    (hnl : new_list = (s.suppliers.filter
        (fun sp => supplier_ids.contains sp.id)).filter
      (fun sp => ¬ ((s.invitations.filter
          (fun inv => inv.rfq_id == rfq.id)).map
        (fun inv => inv.supplier_id)).contains sp.id)) :
    ((¬ supplier_ids.all (fun sid =>
        s.suppliers.any (fun sp => sp.id == sid))) →
      invite_suppliers now a reqid supplier_ids d s =
        Except.error InviteError.suppliers_missing ∧
      InviteError.kind InviteError.suppliers_missing =
        ErrKind.not_found) ∧
    (supplier_ids.all (fun sid =>
        s.suppliers.any (fun sp => sp.id == sid)) = true →
      (new_list = [] →
        invite_suppliers now a reqid supplier_ids d s =
          Except.error InviteError.all_already_invited ∧
        InviteError.kind InviteError.all_already_invited =
          ErrKind.conflict) ∧
      (new_list ≠ [] →
        ∃ s2, invite_suppliers now a reqid supplier_ids d s =
          Except.ok (s2, new_list.length) ∧
        ∀ sid, invitation_count s2 rfq.id sid =
          invitation_count s rfq.id sid +
            (new_list.map (fun sp => sp.id)).count sid)) := by
  have hprep : ensure_request_rfq req d s =
      ({ s with rfqs := s.rfqs.map (fun r2 =>
          if r2.id == rfq.id then
            { r2 with
              deadline := some (DBTime.aware (invite_deadline_instant d)),
              status := RFQStatus.opened,
              budget :=
                match req.finance_budget_amount,
                    req.proposed_budget_amount with
                | some b, _ => b
                | none, some b => b
                | none, none => r2.budget }
          else r2) }, rfq.id) := by
    unfold ensure_request_rfq
    rw [hrid]
    simp only [hrfq]
  have hnfut : ¬ invite_deadline_instant d ≤ now := by omega
  refine ⟨?_, ?_⟩
  · intro hmissing
    refine ⟨?_, rfl⟩
    simp only [invite_suppliers]
    rw [if_neg (not_not_intro hrole), hreq]
    simp only
    rw [if_neg (not_not_intro hst), if_neg hne,
      if_neg hnfut, if_pos hmissing]
  · intro hall
    refine ⟨?_, ?_⟩
    · intro hempty
      refine ⟨?_, rfl⟩
      simp only [invite_suppliers]
      rw [if_neg (not_not_intro hrole), hreq]
      simp only
      rw [if_neg (not_not_intro hst), if_neg hne,
        if_neg hnfut, if_neg (by simp [hall]), hprep]
      simp only
      rw [if_pos ?_]
      rw [← hnl]
      exact hempty
    · intro hnlne
      have hok : invite_suppliers now a reqid supplier_ids d s = Except.ok
          ({ (create_invitations now rfq.id
                (new_list.map (fun sp => sp.id))
                (ensure_request_rfq req d s).1).1 with
              requests := (create_invitations now rfq.id
                  (new_list.map (fun sp => sp.id))
                  (ensure_request_rfq req d s).1).1.requests.map (fun r =>
                if r.id == reqid then
                  { r with rfq_invited_at := some now,
                           status := RequestStatus.rfq_issued,
                           rfq_id := some rfq.id }
                else r) },
            new_list.length) := by
        simp only [invite_suppliers]
        rw [if_neg (not_not_intro hrole), hreq]
        simp only
        rw [if_neg (not_not_intro hst), if_neg hne, if_neg hnfut,
          if_neg (by simp [hall])]
        simp only [hprep]
        rw [if_neg ?hcond]
        case hcond =>
          rw [← hnl]
          exact hnlne
        rw [← hnl]
        have h2 : (create_invitations now rfq.id
            (new_list.map (fun sp => sp.id))
            (ensure_request_rfq req d s).1).2 = new_list.length := by
          rw [(create_invitations_count now rfq.id
            (new_list.map (fun sp => sp.id))
            (ensure_request_rfq req d s).1 0).2]
          exact List.length_map new_list (fun sp => sp.id)
        rw [← h2, hprep]
      refine ⟨_, hok, ?_⟩
      intro sid
      have hbase : invitation_count (ensure_request_rfq req d s).1
          rfq.id sid = invitation_count s rfq.id sid := by
        rw [hprep]
        rfl
      exact ((create_invitations_count now rfq.id
        (new_list.map (fun sp => sp.id))
        (ensure_request_rfq req d s).1 sid).1).trans (by rw [hbase])

/-- Request 0, already carrying RFQ 0, for the C5 witness. -/
def c5_req : PurchaseRequest :=
  { id := 0, title := "Chairs", category := "X", department_id := some 1,
    status := RequestStatus.rfq_issued, rfq_id := some 0,
    proposed_budget_amount := some 5,
    proposed_budget_currency := some "ZMW", finance_budget_amount := none,
    finance_budget_currency := none, rfq_invited_at := some 3 }

/-- Supplier 2, not yet invited, for the C5 witness. -/
def c5_sup2 : SupplierProfile :=
  { id := 2, categories := ["X"], invitations_sent := 0,
    last_invited_at := none, total_awarded_value := 0 }

/-- A store where supplier 1 is already invited to request 0's RFQ 0 and
supplier 2 is not. -/
def c5r_state : State :=
  { rfqs := [c3_rfq],
    invitations := [{ rfq_id := 0, supplier_id := 1,
                      responded_at := none, status := "invited" }],
    quotations := [],
    suppliers := [{ id := 1, categories := ["X"], invitations_sent := 1,
                    last_invited_at := some 2, total_awarded_value := 0 },
                  c5_sup2],
    requests := [c5_req], departments := [1],
    next_quotation_id := 0, next_rfq_id := 1, next_request_id := 1 }

/-- Witness for C5 at concrete inputs: naming unknown supplier 3 fails
not-found; naming only the already-invited supplier 1 fails with the
conflict-classified error; naming suppliers 1 and 2 succeeds, skips
supplier 1 and creates exactly one invitation, for supplier 2. -/
theorem claim_C5_witness :
    (invite_suppliers 10 { id := 9, role := Role.procurement } 0 [1, 3]
        (DBTime.aware 100) c5r_state =
      Except.error InviteError.suppliers_missing ∧
      InviteError.kind InviteError.suppliers_missing =
        ErrKind.not_found) ∧
    (invite_suppliers 10 { id := 9, role := Role.procurement } 0 [1]
        (DBTime.aware 100) c5r_state =
      Except.error InviteError.all_already_invited ∧
      InviteError.kind InviteError.all_already_invited =
        ErrKind.conflict) ∧
    (∃ s2, invite_suppliers 10 { id := 9, role := Role.procurement } 0
        [1, 2] (DBTime.aware 100) c5r_state =
          Except.ok (s2, [c5_sup2].length) ∧
      ∀ sid, invitation_count s2 c3_rfq.id sid =
        invitation_count c5r_state c3_rfq.id sid +
          ([c5_sup2].map (fun sp => sp.id)).count sid) :=
  ⟨(claim_C5 10 { id := 9, role := Role.procurement } 0 [1, 3]
      (DBTime.aware 100) c5r_state c5_req 0 c3_rfq []
      (Or.inl rfl) (by decide) (Or.inr (by decide)) (by decide) (by decide)
      (by decide) (by decide) (by decide)).1 (by decide),
   ((claim_C5 10 { id := 9, role := Role.procurement } 0 [1]
      (DBTime.aware 100) c5r_state c5_req 0 c3_rfq []
      (Or.inl rfl) (by decide) (Or.inr (by decide)) (by decide) (by decide)
      (by decide) (by decide) (by decide)).2 (by decide)).1 rfl,
   ((claim_C5 10 { id := 9, role := Role.procurement } 0 [1, 2]
      (DBTime.aware 100) c5r_state c5_req 0 c3_rfq [c5_sup2]
      (Or.inl rfl) (by decide) (Or.inr (by decide)) (by decide) (by decide)
      (by decide) (by decide) (by decide)).2 (by decide)).2 (by decide)⟩

/-! ### The at-most-one-winner guarantee (C1) -/

/-- Under distinct quotation ids, the lookup by (id, rfq) retrieves the
member itself. -/
theorem findQuotation_of_mem {s : State}
    (hnd : (s.quotations.map (fun q => q.id)).Nodup) {rid : Nat}
    {q : Quotation} (hq : q ∈ s.quotations) (hrfq : q.rfq_id = rid) :
    findQuotation s rid q.id = some q := by
  unfold findQuotation
  cases hfind : s.quotations.find? (fun x => x.id == q.id &&
      x.rfq_id == rid) with
  | none =>
    exfalso
    have := List.find?_eq_none.1 hfind q hq
    simp [hrfq] at this
  | some q2 =>
    have hq2mem := List.mem_of_find?_eq_some hfind
    have hq2p := List.find?_some hfind
    have hid : q2.id = q.id := by
      revert hq2p
      cases h1 : (q2.id == q.id) <;> simp [h1]
      intro
      exact eq_of_beq h1
    have := List.inj_on_of_nodup_map hnd hq2mem hq hid
    rw [this]

/-- When another quotation of the same RFQ is already approved, the
approve call always fails; with passing role gates it fails with the
conflict-classified error. -/
theorem approve_blocked (now : Int) (a : Actor) (rid : Nat)
    (ov : Option String) (s : State) (q qw : Quotation)
    (hfound : findQuotation s rid q.id = some q)
    (hnotapp : ¬ q.status = QuotationStatus.approved)
    (hwit : qw ∈ s.quotations) (hwrfq : qw.rfq_id = rid)
    (hwapp : qw.status = QuotationStatus.approved)
    (hwid : ¬ qw.id = q.id) :
    (∃ e, approve_quotation now a rid q.id ov s = Except.error e) ∧
    ((a.role = Role.finance ∨ a.role = Role.superadmin ∨
        a.role = Role.procurement) →
      (q.status = QuotationStatus.pending_finance_approval →
        elevated a.role = true) →
      (¬ q.status = QuotationStatus.pending_finance_approval →
        ov.isSome → elevated a.role = true) →
      approve_quotation now a rid q.id ov s =
        Except.error ApproveError.already_awarded) := by
  have hfound2 : findQuotation (sweep now s) rid q.id = some q := hfound
  have hany : ((sweep now s).quotations.any (fun q2 =>
      q2.rfq_id == rid && q2.status == QuotationStatus.approved &&
        ¬ q2.id == q.id)) = true := by
    rw [List.any_eq_true]
    refine ⟨qw, hwit, ?_⟩
    simp [hwrfq, hwapp, hwid]
  by_cases hrole : a.role = Role.finance ∨ a.role = Role.superadmin ∨
      a.role = Role.procurement
  case neg =>
    refine ⟨⟨ApproveError.role_not_allowed, ?_⟩, fun hr => absurd hr hrole⟩
    simp only [approve_quotation]
    rw [if_pos hrole]
  by_cases hg1 : q.status = QuotationStatus.pending_finance_approval ∧
      ¬ elevated a.role = true
  · refine ⟨⟨ApproveError.pending_requires_finance, ?_⟩,
      fun _ hgate1 _ => absurd (hgate1 hg1.1) hg1.2⟩
    simp only [approve_quotation]
    rw [if_neg (not_not_intro hrole), hfound2]
    simp only
    rw [if_neg hnotapp, if_pos hg1]
  by_cases hg2 : ¬ q.status = QuotationStatus.pending_finance_approval ∧
      ov.isSome = true ∧ ¬ elevated a.role = true
  · refine ⟨⟨ApproveError.override_requires_finance, ?_⟩,
      fun _ _ hgate2 => absurd (hgate2 hg2.1 hg2.2.1) hg2.2.2⟩
    simp only [approve_quotation]
    rw [if_neg (not_not_intro hrole), hfound2]
    simp only
    rw [if_neg hnotapp, if_neg hg1, if_pos hg2]
  · have herr : approve_quotation now a rid q.id ov s =
        Except.error ApproveError.already_awarded := by
      simp only [approve_quotation]
      rw [if_neg (not_not_intro hrole), hfound2]
      simp only
      rw [if_neg hnotapp, if_neg hg1, if_neg hg2, if_pos hany]
    exact ⟨⟨_, herr⟩, fun _ _ _ => herr⟩

/-- C1 amended.  In every reachable state of the modelled system, at
most one quotation per RFQ is `approved` (the claimed invariant holds).
However, an approve call issued while a different quotation of the same
RFQ is already approved does not always fail with ConflictError as
claimed: the role gates run first, so it fails with some error — leaving
the store unchanged — and that error is the conflict-classified "RFQ has
already been awarded to another quotation" only when the caller passes
the role gates; a caller failing them (e.g. plain procurement approving
a pending-finance-approval quotation, or supplying an override
justification) sees ForbiddenError instead. -/
theorem claim_C1 (s : State) (hreach : Reachable s) :
    AtMostOneApproved s ∧
    ∀ (now : Int) (a : Actor) (rid : Nat) (q qw : Quotation)
      (ov : Option String),
      q ∈ s.quotations → qw ∈ s.quotations → q.rfq_id = rid →
      qw.rfq_id = rid → qw.status = QuotationStatus.approved → q ≠ qw →
      (∃ e, approve_quotation now a rid q.id ov s = Except.error e) ∧
      ((a.role = Role.finance ∨ a.role = Role.superadmin ∨
          a.role = Role.procurement) →
        (q.status = QuotationStatus.pending_finance_approval →
          elevated a.role = true) →
        (¬ q.status = QuotationStatus.pending_finance_approval →
          ov.isSome → elevated a.role = true) →
        approve_quotation now a rid q.id ov s =
          Except.error ApproveError.already_awarded ∧
        ApproveError.kind ApproveError.already_awarded =
          ErrKind.conflict) ∧
      exec (Op.op_approve now a rid q.id ov) s = s := by
  obtain ⟨⟨hnd, hlt⟩, hone⟩ := reachable_inv hreach
  refine ⟨hone, ?_⟩
  intro now a rid q qw ov hq hqw hqrfq hwrfq hwapp hne
  have hwid : ¬ qw.id = q.id := by
    intro hid
    exact hne (List.inj_on_of_nodup_map hnd hq hqw hid.symm)
  have hnotapp : ¬ q.status = QuotationStatus.approved := by
    intro happ
    have h2 : 2 ≤ s.quotations.countP (approved_on rid) := by
      refine two_le_countP hq hqw hne ?_ ?_
      · simp [approved_on, hqrfq, happ]
      · simp [approved_on, hwrfq, hwapp]
    exact absurd (hone rid) (by omega)
  have hfound : findQuotation s rid q.id = some q :=
    findQuotation_of_mem hnd hq hqrfq
  obtain ⟨hex, hgate⟩ := approve_blocked now a rid ov s q qw hfound
    hnotapp hqw hwrfq hwapp hwid
  obtain ⟨e, he⟩ := hex
  refine ⟨⟨e, he⟩, fun h1 h2 h3 => ⟨hgate h1 h2 h3, rfl⟩, ?_⟩
  simp only [exec]
  rw [he]

/-- Initial store for the C1 concrete scenario: two suppliers, nothing
else. -/
def c1_init : State :=
  { rfqs := [], quotations := [], invitations := [],
    suppliers := [{ id := 1, categories := ["X"], invitations_sent := 0,
                    last_invited_at := none, total_awarded_value := 0 },
                  { id := 2, categories := ["X"], invitations_sent := 0,
                    last_invited_at := none, total_awarded_value := 0 }],
    requests := [], departments := [],
    next_quotation_id := 0, next_rfq_id := 0, next_request_id := 0 }

/-- Endpoint calls reaching the scenario state: procurement opens RFQ 0
inviting both suppliers, both submit, procurement approves quotation 0
(which auto-rejects quotation 1). -/
def c1_ops : List Op :=
  [Op.op_create_rfq 0 120 { id := 10, role := Role.procurement } "T" "X" 5
     (DBTime.aware 100) [1, 2] none,
   Op.op_submit 5 { id := 21, role := Role.supplier } 1 0 50,
   Op.op_submit 6 { id := 22, role := Role.supplier } 2 0 60,
   Op.op_approve 7 { id := 10, role := Role.procurement } 0 0 none]

/-- The reachable scenario state: quotation 0 approved, quotation 1
rejected, RFQ 0 awarded. -/
def c1_ex_state : State := run c1_ops c1_init

/-- C1 counterexample: in the reachable state `c1_ex_state`, quotation 0
of RFQ 0 is approved, yet procurement's approve call on quotation 1 of
the same RFQ with an override justification fails with the
forbidden-classified role-gate error (`rfqs.py` 797-803), not with the
ConflictError the claim requires for every approve call made while a
different quotation of the RFQ is approved. -/
theorem claim_C1_counterexample :
    Reachable c1_ex_state ∧
    (∃ qw ∈ c1_ex_state.quotations, qw.rfq_id = 0 ∧
      qw.status = QuotationStatus.approved ∧ qw.id ≠ 1) ∧
    (∃ q ∈ c1_ex_state.quotations, q.id = 1 ∧ q.rfq_id = 0) ∧
    approve_quotation 8 { id := 10, role := Role.procurement } 0 1
        (some "over budget") c1_ex_state =
      Except.error ApproveError.override_requires_finance ∧
    ApproveError.kind ApproveError.override_requires_finance =
      ErrKind.forbidden ∧
    ErrKind.forbidden ≠ ErrKind.conflict :=
  ⟨⟨c1_init, c1_ops, ⟨rfl, rfl, rfl, rfl⟩, rfl⟩, by decide, by decide,
   rfl, rfl, by decide⟩

/-- The approved winner in the C1 scenario. -/
def c1_q0 : Quotation :=
  { id := 0, rfq_id := 0, supplier_id := 1, amount := 50,
    status := QuotationStatus.approved, approved_at := some 7,
    approved_by_id := some 10, budget_override_justification := none,
    finance_approval_requested_at := none,
    finance_approval_requested_by_id := none }

/-- The auto-rejected loser in the C1 scenario. -/
def c1_q1 : Quotation :=
  { id := 1, rfq_id := 0, supplier_id := 2, amount := 60,
    status := QuotationStatus.rejected, approved_at := none,
    approved_by_id := none, budget_override_justification := none,
    finance_approval_requested_at := none,
    finance_approval_requested_by_id := none }

/-- Witness for C1 at the concrete reachable state: finance's attempt to
approve the rejected quotation 1 while quotation 0 holds the award fails
with the conflict-classified error and leaves the store unchanged. -/
theorem claim_C1_witness :
    AtMostOneApproved c1_ex_state ∧
    ((∃ e, approve_quotation 8 { id := 11, role := Role.finance } 0
        c1_q1.id none c1_ex_state = Except.error e) ∧
    approve_quotation 8 { id := 11, role := Role.finance } 0 c1_q1.id
        none c1_ex_state = Except.error ApproveError.already_awarded ∧
    ApproveError.kind ApproveError.already_awarded = ErrKind.conflict ∧
    exec (Op.op_approve 8 { id := 11, role := Role.finance } 0 c1_q1.id
      none) c1_ex_state = c1_ex_state) := by
  have h := claim_C1 c1_ex_state
    ⟨c1_init, c1_ops, ⟨rfl, rfl, rfl, rfl⟩, rfl⟩
  have h2 := h.2 8 { id := 11, role := Role.finance } 0 c1_q1 c1_q0 none
    (by decide) (by decide) (by decide) (by decide) (by decide) (by decide)
  exact ⟨h.1, h2.1, (h2.2.1 (Or.inl rfl) (fun hp => nomatch hp)
    (fun _ hp => nomatch hp)).1,
    (h2.2.1 (Or.inl rfl) (fun hp => nomatch hp) (fun _ hp => nomatch hp)).2,
    h2.2.2⟩

end ProcureHub
